import Mathlib

/-!
Verification development for the sql-parser-js repository.

Shallow embedding of the lexer (`src/lexer/lexer.js`, `src/lexer/token-types.js`),
the recursive-descent parser (`src/parser/parser.js`), the AST model
(`src/ast/ast-nodes.js`), the error model (`src/errors/sql-error.js`), the
analyzer (`src/analyzer/query-analyzer.js`) and the facade (`src/index.js`).

Conventions:
* JavaScript strings become Lean `String`/`List Char`; the character-class
  regexes (`/\s/`, `/\d/`, `/[a-zA-Z_]/`) are modelled on their ASCII range,
  which is the range exercised by the grammar.
* JavaScript numbers carried by `Literal` nodes are modelled as exact `Rat`
  values produced by `parseInt`/`parseFloat` models; all values reached in
  the theorems below are small integers, where the double model is exact.
* `null`/`undefined` become `Option`; exceptions become `Except SQLErr`.
* The unbounded recursion of the recursive-descent parser is modelled with a
  fuel parameter; every nested call consumes one unit of fuel.
-/

namespace SqlParserJs

/-- Character used for single quotes (kept out of literals for hygiene). -/
def quoteChar : Char := Char.ofNat 39

/-- Backslash character. -/
def backslashChar : Char := Char.ofNat 92

/-- Backtick character. -/
def backtickChar : Char := Char.ofNat 96

/-- Double-quote character. -/
def dquoteChar : Char := Char.ofNat 34

/-- Token kinds, from `TokenType` in `src/lexer/token-types.js`. -/
inductive TokenType where
  | IDENTIFIER | STRING | NUMBER | BOOLEAN | NULL
  | CREATE | DROP | ALTER | TABLE | INDEX | VIEW | DATABASE | SCHEMA
  | SELECT | INSERT | UPDATE | DELETE | FROM | WHERE | INTO | VALUES | SET
  | JOIN | INNER | LEFT | RIGHT | FULL | OUTER | CROSS | ON | USING
  | GROUP | BY | HAVING | ORDER | ASC | DESC | LIMIT | OFFSET
  | UNION | INTERSECT | EXCEPT | ALL | ANY | DISTINCT
  | WITH | RECURSIVE | OVER | PARTITION | WINDOW | ROWS | RANGE
  | UNBOUNDED | PRECEDING | FOLLOWING | CURRENT | ROW
  | ROW_NUMBER | RANK | DENSE_RANK | LEAD | LAG
  | FIRST_VALUE | LAST_VALUE | NTH_VALUE
  | INT | INTEGER | VARCHAR | CHAR | TEXT | DECIMAL | FLOAT | DOUBLE
  | DATE | TIME | TIMESTAMP | BOOLEAN_TYPE | INTERVAL
  | YEAR | MONTH | DAY | HOUR | MINUTE | SECOND
  | PRIMARY | FOREIGN | KEY | UNIQUE | NOT | CONSTRAINT | CHECK
  | DEFAULT | AUTO_INCREMENT
  | AND | OR | IN | EXISTS | BETWEEN | LIKE | ILIKE | IS | AS
  | COUNT | SUM | AVG | MIN | MAX | CASE | WHEN | THEN | ELSE | END
  | EQUALS | NOT_EQUALS | LESS_THAN | LESS_THAN_EQUALS
  | GREATER_THAN | GREATER_THAN_EQUALS
  | PLUS | MINUS | MULTIPLY | DIVIDE | MODULO | CONCAT
  | SEMICOLON | COMMA | DOT | LEFT_PAREN | RIGHT_PAREN
  | LEFT_BRACKET | RIGHT_BRACKET
  | WHITESPACE | COMMENT | NEWLINE | EOF | UNKNOWN
deriving DecidableEq, Repr

/-- `KEYWORDS`, DDL group. -/
def keywordsDdl : List (String × TokenType) :=
  [("CREATE", .CREATE), ("DROP", .DROP), ("ALTER", .ALTER), ("TABLE", .TABLE),
   ("INDEX", .INDEX), ("VIEW", .VIEW), ("DATABASE", .DATABASE), ("SCHEMA", .SCHEMA)]

/-- `KEYWORDS`, DML group. -/
def keywordsDml : List (String × TokenType) :=
  [("SELECT", .SELECT), ("INSERT", .INSERT), ("UPDATE", .UPDATE), ("DELETE", .DELETE),
   ("FROM", .FROM), ("WHERE", .WHERE), ("INTO", .INTO), ("VALUES", .VALUES),
   ("SET", .SET)]

/-- `KEYWORDS`, query-clause group. -/
def keywordsClauses : List (String × TokenType) :=
  [("JOIN", .JOIN), ("INNER", .INNER), ("LEFT", .LEFT), ("RIGHT", .RIGHT),
   ("FULL", .FULL), ("OUTER", .OUTER), ("CROSS", .CROSS), ("ON", .ON),
   ("USING", .USING), ("GROUP", .GROUP), ("BY", .BY), ("HAVING", .HAVING)]

/-- `KEYWORDS`, query-clause group continued. -/
def keywordsClauses2 : List (String × TokenType) :=
  [("ORDER", .ORDER), ("ASC", .ASC), ("DESC", .DESC), ("LIMIT", .LIMIT),
   ("OFFSET", .OFFSET), ("UNION", .UNION), ("INTERSECT", .INTERSECT),
   ("EXCEPT", .EXCEPT), ("ALL", .ALL), ("ANY", .ANY), ("DISTINCT", .DISTINCT)]

/-- `KEYWORDS`, CTE and window group. -/
def keywordsCte : List (String × TokenType) :=
  [("WITH", .WITH), ("RECURSIVE", .RECURSIVE), ("OVER", .OVER),
   ("PARTITION", .PARTITION), ("WINDOW", .WINDOW), ("ROWS", .ROWS),
   ("RANGE", .RANGE), ("UNBOUNDED", .UNBOUNDED), ("PRECEDING", .PRECEDING),
   ("FOLLOWING", .FOLLOWING), ("CURRENT", .CURRENT), ("ROW", .ROW)]

/-- `KEYWORDS`, window-function group. -/
def keywordsWindow : List (String × TokenType) :=
  [("ROW_NUMBER", .ROW_NUMBER), ("RANK", .RANK), ("DENSE_RANK", .DENSE_RANK),
   ("LEAD", .LEAD), ("LAG", .LAG), ("FIRST_VALUE", .FIRST_VALUE),
   ("LAST_VALUE", .LAST_VALUE), ("NTH_VALUE", .NTH_VALUE)]

/-- `KEYWORDS`, data-type group. -/
def keywordsTypes : List (String × TokenType) :=
  [("INT", .INT), ("INTEGER", .INTEGER), ("VARCHAR", .VARCHAR), ("CHAR", .CHAR),
   ("TEXT", .TEXT), ("DECIMAL", .DECIMAL), ("FLOAT", .FLOAT), ("DOUBLE", .DOUBLE),
   ("DATE", .DATE), ("TIME", .TIME)]

/-- `KEYWORDS`, data-type group continued. -/
def keywordsTypes2 : List (String × TokenType) :=
  [("TIMESTAMP", .TIMESTAMP), ("BOOLEAN", .BOOLEAN_TYPE), ("INTERVAL", .INTERVAL),
   ("YEAR", .YEAR), ("MONTH", .MONTH), ("DAY", .DAY), ("HOUR", .HOUR),
   ("MINUTE", .MINUTE), ("SECOND", .SECOND)]

/-- `KEYWORDS`, constraint group. -/
def keywordsConstraints : List (String × TokenType) :=
  [("PRIMARY", .PRIMARY), ("FOREIGN", .FOREIGN), ("KEY", .KEY),
   ("UNIQUE", .UNIQUE), ("NOT", .NOT), ("CONSTRAINT", .CONSTRAINT),
   ("CHECK", .CHECK), ("DEFAULT", .DEFAULT), ("AUTO_INCREMENT", .AUTO_INCREMENT)]

/-- `KEYWORDS`, logical-operator group. -/
def keywordsLogical : List (String × TokenType) :=
  [("AND", .AND), ("OR", .OR), ("IN", .IN), ("EXISTS", .EXISTS),
   ("BETWEEN", .BETWEEN), ("LIKE", .LIKE), ("ILIKE", .ILIKE), ("IS", .IS),
   ("AS", .AS)]

/-- `KEYWORDS`, function keywords and the literal triple at the end. -/
def keywordsFns : List (String × TokenType) :=
  [("COUNT", .COUNT), ("SUM", .SUM), ("AVG", .AVG), ("MIN", .MIN), ("MAX", .MAX),
   ("CASE", .CASE), ("WHEN", .WHEN), ("THEN", .THEN), ("ELSE", .ELSE),
   ("END", .END), ("TRUE", .BOOLEAN), ("FALSE", .BOOLEAN), ("NULL", .NULL)]

/-- The `KEYWORDS` object from `src/lexer/token-types.js`, as an association
list in the source's insertion order. -/
def KEYWORDS : List (String × TokenType) :=
  keywordsDdl ++ keywordsDml ++ keywordsClauses ++ keywordsClauses2 ++
  keywordsCte ++ keywordsWindow ++ keywordsTypes ++ keywordsTypes2 ++
  keywordsConstraints ++ keywordsLogical ++ keywordsFns

/-- `KEYWORDS[upperValue]` lookup. -/
def keywordLookup (s : String) : Option TokenType :=
  (KEYWORDS.lookup s)

/-- A token, from the `Token` class in `src/lexer/token-types.js`. -/
structure Token where
  type : TokenType
  value : String
  line : Nat
  column : Nat
  startPos : Nat
  endPos : Nat
deriving DecidableEq, Repr

/-- The `SQLError` value (`src/errors/sql-error.js`): message, code and a
1-based position.  The structured `context` payload is carried as a list of
string pairs. -/
structure SQLErr where
  message : String
  code : String
  line : Nat
  column : Nat
  context : List (String × String) := []
deriving DecidableEq, Repr

/-- `SQLError.lexicalError`. -/
def SQLErr.lexicalError (message : String) (line column : Nat) : SQLErr :=
  { message := message, code := "LEXICAL_ERROR", line := line, column := column }

/-- `SQLError.unterminatedString`. -/
def SQLErr.unterminatedString (line column : Nat) : SQLErr :=
  { message := "Unterminated string literal", code := "UNTERMINATED_STRING",
    line := line, column := column }

/-- `SQLError.unexpectedToken`. -/
def SQLErr.unexpectedToken (expected actual : String) (line column : Nat) : SQLErr :=
  { message := "Expected " ++ expected ++ ", but got " ++ actual,
    code := "UNEXPECTED_TOKEN", line := line, column := column,
    context := [("expected", expected), ("actual", actual)] }

/-- `SQLError.unexpectedEnd`. -/
def SQLErr.unexpectedEnd (line column : Nat) : SQLErr :=
  { message := "Unexpected end of input", code := "UNEXPECTED_END",
    line := line, column := column }

/-! ## Lexer (`src/lexer/lexer.js`) -/

/-- Lexer options (`includeWhitespace`, `includeComments`). -/
structure LexOptions where
  includeWhitespace : Bool := false
  includeComments : Bool := false
deriving DecidableEq, Repr

/-- The JS regex `/\s/` on the ASCII range: space, tab, newline, carriage
return, vertical tab, form feed.  (The Unicode white-space code points also
matched by `/\s/` are outside the embedded character range.) -/
def isJsSpace (c : Char) : Bool :=
  c = ' ' || c = '\t' || c = '\n' || c = '\r' ||
  c = Char.ofNat 11 || c = Char.ofNat 12

/-- The JS regex `/\d/`. -/
def isDigitC (c : Char) : Bool := '0' ≤ c && c ≤ '9'

/-- The JS regex `/[a-zA-Z_]/`. -/
def isIdentStart (c : Char) : Bool :=
  ('a' ≤ c && c ≤ 'z') || ('A' ≤ c && c ≤ 'Z') || c = '_'

/-- The JS regex `/[a-zA-Z0-9_]/`. -/
def isIdentChar (c : Char) : Bool := isIdentStart c || isDigitC c

/-- `toUpperCase()` on the characters (the `String.map`-based library
function is modelled on the character list form). -/
def jsUpper (s : String) : String := String.mk (s.data.map Char.toUpper)

/-- `toLowerCase()` on the characters. -/
def jsLower (s : String) : String := String.mk (s.data.map Char.toLower)

/-- `trim()`: strip leading and trailing whitespace. -/
def jsTrim (s : String) : String :=
  String.mk (((s.data.dropWhile isJsSpace).reverse.dropWhile isJsSpace).reverse)

/-- Lexer cursor: the remaining input together with the absolute position
and the 1-based line/column, exactly the mutable fields of the `Lexer`
class (`position`, `line`, `column`). -/
structure LexState where
  input : List Char
  pos : Nat
  line : Nat
  col : Nat
deriving DecidableEq, Repr

/-- `advance()`: consume one character, updating position, line and column. -/
def stepOne (st : LexState) : LexState :=
  match st.input with
  | [] => st
  | c :: cs =>
    if c = '\n' then { input := cs, pos := st.pos + 1, line := st.line + 1, col := 1 }
    else { input := cs, pos := st.pos + 1, line := st.line, col := st.col + 1 }

/-- Consume `n` characters by iterating `advance()`. -/
def stepN (st : LexState) : Nat → LexState
  | 0 => st
  | n + 1 => stepN (stepOne st) n

theorem stepOne_input (st : LexState) : (stepOne st).input = st.input.drop 1 := by
  cases st with
  | mk input pos line col =>
    cases input with
    | nil => rfl
    | cons c cs => by_cases h : c = '\n' <;> simp [stepOne, h]

theorem stepN_input (st : LexState) (n : Nat) :
    (stepN st n).input = st.input.drop n := by
  induction n generalizing st with
  | zero => simp [stepN]
  | succ k ih =>
    rw [stepN, ih, stepOne_input, List.drop_drop]
    congr 1
    omega

/-- Escape mapping used by `readString` for characters following a
backslash. -/
def stringEscape (e : Char) : Char :=
  if e = 'n' then '\n'
  else if e = 't' then '\t'
  else if e = 'r' then '\r'
  else if e = backslashChar then backslashChar
  else if e = quoteChar then quoteChar
  else if e = dquoteChar then dquoteChar
  else e

/-- The scanning loop of `readString`, applied to the characters after the
opening quote.  Returns the decoded value and the number of characters
consumed (closing quote included); `none` means the string is unterminated. -/
def scanString (q : Char) : List Char → Option (List Char × Nat)
  | [] => none
  | c :: cs =>
    if c = q then some ([], 1)
    else if c = backslashChar then
      match cs with
      | [] => none
      | e :: cs2 =>
        match scanString q cs2 with
        | none => none
        | some (v, n) => some (stringEscape e :: v, n + 2)
    else
      match scanString q cs with
      | none => none
      | some (v, n) => some (c :: v, n + 1)

/-- The scanning loop of `readQuotedIdentifier` (backslash keeps the next
character verbatim). -/
def scanQuotedIdent (q : Char) : List Char → Option (List Char × Nat)
  | [] => none
  | c :: cs =>
    if c = q then some ([], 1)
    else if c = backslashChar then
      match cs with
      | [] => none
      | e :: cs2 =>
        match scanQuotedIdent q cs2 with
        | none => none
        | some (v, n) => some (e :: v, n + 2)
    else
      match scanQuotedIdent q cs with
      | none => none
      | some (v, n) => some (c :: v, n + 1)

/-- The scanning loop of `readMultiLineComment` after the opening `/*`:
consumes up to and including the closing sequence, or the whole input when
no closing sequence exists, and never fails. -/
def scanMLComment : List Char → (List Char × Nat)
  | [] => ([], 0)
  | '*' :: '/' :: _ => ([], 2)
  | c :: cs =>
    let r := scanMLComment cs
    (c :: r.1, r.2 + 1)

/-- Whether the remaining input contains the closing sequence reachable by
`scanMLComment`. -/
def hasMLTerminator : List Char → Bool
  | [] => false
  | '*' :: '/' :: _ => true
  | _ :: cs => hasMLTerminator cs

/-- `readNumber`, as a function from the remaining input (starting at the
first digit) to the consumed characters; `Except.error` is the
`Invalid number format` case of a malformed exponent. -/
def scanNumber (l : List Char) : Except Unit (List Char) :=
  let ip := l.takeWhile isDigitC
  let r1 := l.drop ip.length
  let fr : List Char :=
    match r1 with
    | c :: d :: _ => if c = '.' && isDigitC d then '.' :: ((r1.drop 1).takeWhile isDigitC) else []
    | _ => []
  let r2 := r1.drop fr.length
  match r2 with
  | c :: rest =>
    if c = 'e' || c = 'E' then
      let sgn : List Char :=
        match rest with
        | s :: _ => if s = '+' || s = '-' then [s] else []
        | [] => []
      let r3 := rest.drop sgn.length
      match r3 with
      | d :: _ =>
        if isDigitC d then .ok (ip ++ fr ++ c :: sgn ++ r3.takeWhile isDigitC)
        else .error ()
      | [] => .error ()
    else .ok (ip ++ fr)
  | [] => .ok (ip ++ fr)

/-- `readOperator`, given the first character and the rest of the input.
Returns the token type and consumed characters, or the error message
raised at the operator's start position. -/
def readOperatorCore (c : Char) (rest : List Char) : Except String (TokenType × List Char) :=
  if c = '=' then .ok (.EQUALS, [c])
  else if c = '<' then
    match rest with
    | d :: _ =>
      if d = '=' then .ok (.LESS_THAN_EQUALS, [c, d])
      else if d = '>' then .ok (.NOT_EQUALS, [c, d])
      else .ok (.LESS_THAN, [c])
    | [] => .ok (.LESS_THAN, [c])
  else if c = '>' then
    match rest with
    | d :: _ =>
      if d = '=' then .ok (.GREATER_THAN_EQUALS, [c, d])
      else .ok (.GREATER_THAN, [c])
    | [] => .ok (.GREATER_THAN, [c])
  else if c = '!' then
    match rest with
    | d :: _ =>
      if d = '=' then .ok (.NOT_EQUALS, [c, d])
      else .error ("Unexpected character: " ++ String.mk [c])
    | [] => .error ("Unexpected character: " ++ String.mk [c])
  else if c = '+' then .ok (.PLUS, [c])
  else if c = '-' then .ok (.MINUS, [c])
  else if c = '*' then .ok (.MULTIPLY, [c])
  else if c = '/' then .ok (.DIVIDE, [c])
  else if c = '%' then .ok (.MODULO, [c])
  else if c = '|' then
    match rest with
    | d :: _ =>
      if d = '|' then .ok (.CONCAT, [c, d])
      else .error ("Unexpected character: " ++ String.mk [c])
    | [] => .error ("Unexpected character: " ++ String.mk [c])
  else .error ("Unknown operator: " ++ String.mk [c])

/-- `readPunctuation`'s switch. -/
def punctuationType (c : Char) : Option TokenType :=
  if c = ';' then some .SEMICOLON
  else if c = ',' then some .COMMA
  else if c = '.' then some .DOT
  else if c = '(' then some .LEFT_PAREN
  else if c = ')' then some .RIGHT_PAREN
  else if c = '[' then some .LEFT_BRACKET
  else if c = ']' then some .RIGHT_BRACKET
  else none

theorem scanNumber_pos (c : Char) (cs : List Char) (v : List Char)
    (hd : isDigitC c = true) (h : scanNumber (c :: cs) = .ok v) : 1 ≤ v.length := by
  unfold scanNumber at h
  simp only [List.takeWhile_cons, hd, if_true] at h
  split at h
  · split at h
    · split at h
      · split at h
        · simp only [Except.ok.injEq] at h
          subst h
          simp
        · exact absurd h (by simp)
      · exact absurd h (by simp)
    · simp only [Except.ok.injEq] at h
      subst h
      simp
  · simp only [Except.ok.injEq] at h
    subst h
    simp

/-- Membership in the operator dispatch set of `tokenize`. -/
def isOperatorStart (c : Char) : Bool :=
  c = '=' || c = '<' || c = '>' || c = '!' || c = '+' || c = '-' ||
  c = '*' || c = '/' || c = '%' || c = '|'

/-- Membership in the punctuation dispatch set of `tokenize`. -/
def isPunctuationStart (c : Char) : Bool :=
  c = ';' || c = ',' || c = '.' || c = '(' || c = ')' || c = '[' || c = ']'


/-- One iteration of the `tokenize` loop body, given the current character
`c` and the remaining characters `cs` (so `st.input = c :: cs`).  Produces
the tokens pushed by this iteration (possibly none, for skipped trivia)
and the number of characters consumed, or the raised error.  The branch
order matches `tokenize` in `src/lexer/lexer.js`. -/
def lexStep (opts : LexOptions) (st : LexState) (c : Char) (cs : List Char) :
    Except SQLErr (List Token × Nat) :=
  if isJsSpace c ∧ c ≠ '\n' then
    if opts.includeWhitespace then
      .ok ([⟨.WHITESPACE, String.mk ((c :: cs).takeWhile (fun x => isJsSpace x && x ≠ '\n')),
             st.line, st.col, st.pos,
             st.pos + ((c :: cs).takeWhile (fun x => isJsSpace x && x ≠ '\n')).length⟩],
           ((c :: cs).takeWhile (fun x => isJsSpace x && x ≠ '\n')).length)
    else
      .ok ([], ((c :: cs).takeWhile (fun x => isJsSpace x && x ≠ '\n')).length)
  else if c = '\n' then
    if opts.includeWhitespace then
      .ok ([⟨.NEWLINE, "\n", st.line, st.col, st.pos, st.pos + 1⟩], 1)
    else
      .ok ([], 1)
  else if c = '-' ∧ cs.head? = some '-' then
    -- readSingleLineComment, the "--" form
    if opts.includeComments then
      .ok ([⟨.COMMENT, jsTrim (String.mk ((cs.drop 1).takeWhile (fun x => x ≠ '\n'))),
             st.line, st.col, st.pos,
             st.pos + 2 + ((cs.drop 1).takeWhile (fun x => x ≠ '\n')).length⟩],
           2 + ((cs.drop 1).takeWhile (fun x => x ≠ '\n')).length)
    else
      .ok ([], 2 + ((cs.drop 1).takeWhile (fun x => x ≠ '\n')).length)
  else if c = '#' then
    -- readSingleLineComment, the "#" form
    if opts.includeComments then
      .ok ([⟨.COMMENT, jsTrim (String.mk (cs.takeWhile (fun x => x ≠ '\n'))),
             st.line, st.col, st.pos,
             st.pos + 1 + (cs.takeWhile (fun x => x ≠ '\n')).length⟩],
           1 + (cs.takeWhile (fun x => x ≠ '\n')).length)
    else
      .ok ([], 1 + (cs.takeWhile (fun x => x ≠ '\n')).length)
  else if c = '/' ∧ cs.head? = some '*' then
    -- readMultiLineComment; an unterminated comment consumes to the end
    -- of the input without raising an error
    if opts.includeComments then
      .ok ([⟨.COMMENT, jsTrim (String.mk (scanMLComment (cs.drop 1)).1),
             st.line, st.col, st.pos,
             st.pos + 2 + (scanMLComment (cs.drop 1)).2⟩],
           2 + (scanMLComment (cs.drop 1)).2)
    else
      .ok ([], 2 + (scanMLComment (cs.drop 1)).2)
  else if c = quoteChar then
    -- readString (single quotes only)
    match scanString c cs with
    | none => .error (SQLErr.unterminatedString st.line st.col)
    | some (v, n) =>
      .ok ([⟨.STRING, String.mk v, st.line, st.col, st.pos, st.pos + n + 1⟩], n + 1)
  else if c = dquoteChar ∨ c = backtickChar then
    -- readQuotedIdentifier
    match scanQuotedIdent c cs with
    | none => .error (SQLErr.lexicalError "Unterminated quoted identifier" st.line st.col)
    | some (v, n) =>
      .ok ([⟨.IDENTIFIER, String.mk v, st.line, st.col, st.pos, st.pos + n + 1⟩], n + 1)
  else if isDigitC c then
    -- readNumber
    match scanNumber (c :: cs) with
    | .error _ => .error (SQLErr.lexicalError "Invalid number format" st.line st.col)
    | .ok v =>
      .ok ([⟨.NUMBER, String.mk v, st.line, st.col, st.pos, st.pos + v.length⟩],
           v.length)
  else if isIdentStart c then
    -- readIdentifier: keyword lookup on the upper-cased value
    .ok ([⟨(keywordLookup (jsUpper (String.mk ((c :: cs).takeWhile isIdentChar)))).getD .IDENTIFIER,
           String.mk ((c :: cs).takeWhile isIdentChar), st.line, st.col, st.pos,
           st.pos + ((c :: cs).takeWhile isIdentChar).length⟩],
         ((c :: cs).takeWhile isIdentChar).length)
  else if isOperatorStart c then
    match readOperatorCore c cs with
    | .error msg => .error (SQLErr.lexicalError msg st.line st.col)
    | .ok (ty, chars) =>
      .ok ([⟨ty, String.mk chars, st.line, st.col, st.pos, st.pos + chars.length⟩],
           chars.length)
  else if isPunctuationStart c then
    match punctuationType c with
    | none => .error (SQLErr.lexicalError ("Unknown punctuation: " ++ String.mk [c]) st.line st.col)
    | some ty =>
      .ok ([⟨ty, String.mk [c], st.line, st.col, st.pos, st.pos + 1⟩], 1)
  else
    .error (SQLErr.lexicalError ("Unexpected character: " ++ String.mk [c]) st.line st.col)

/-- Invariant of `readOperatorCore` results: success consumes at least one
character and never yields an EOF token kind. -/
def OpInv : Except String (TokenType × List Char) → Prop
  | .ok (ty, chars) => 1 ≤ chars.length ∧ ty ≠ TokenType.EOF
  | .error _ => True

theorem readOperatorCore_sound (c : Char) (rest : List Char) :
    OpInv (readOperatorCore c rest) := by
  unfold readOperatorCore
  by_cases h1 : c = '='
  · rw [if_pos h1]
    exact ⟨by simp, by decide⟩
  · rw [if_neg h1]
    by_cases h2 : c = '<'
    · rw [if_pos h2]
      repeat' split
      all_goals exact ⟨by simp, by decide⟩
    · rw [if_neg h2]
      by_cases h3 : c = '>'
      · rw [if_pos h3]
        repeat' split
        all_goals exact ⟨by simp, by decide⟩
      · rw [if_neg h3]
        by_cases h4 : c = '!'
        · rw [if_pos h4]
          repeat' split
          all_goals first
            | exact ⟨by simp, by decide⟩
            | trivial
        · rw [if_neg h4]
          by_cases h5 : c = '+'
          · rw [if_pos h5]
            exact ⟨by simp, by decide⟩
          · rw [if_neg h5]
            by_cases h6 : c = '-'
            · rw [if_pos h6]
              exact ⟨by simp, by decide⟩
            · rw [if_neg h6]
              by_cases h7 : c = '*'
              · rw [if_pos h7]
                exact ⟨by simp, by decide⟩
              · rw [if_neg h7]
                by_cases h8 : c = '/'
                · rw [if_pos h8]
                  exact ⟨by simp, by decide⟩
                · rw [if_neg h8]
                  by_cases h9 : c = '%'
                  · rw [if_pos h9]
                    exact ⟨by simp, by decide⟩
                  · rw [if_neg h9]
                    by_cases h10 : c = '|'
                    · rw [if_pos h10]
                      repeat' split
                      all_goals first
                        | exact ⟨by simp, by decide⟩
                        | trivial
                    · rw [if_neg h10]
                      trivial

/-- Invariant of `punctuationType` results: never the EOF token kind. -/
def PunctInv : Option TokenType → Prop
  | some ty => ty ≠ TokenType.EOF
  | none => True

theorem punctuationType_sound (c : Char) : PunctInv (punctuationType c) := by
  unfold punctuationType
  repeat' split
  all_goals simp only [PunctInv]
  all_goals decide

theorem lookup_val_ne_eof (l : List (String × TokenType))
    (hall : ∀ p ∈ l, p.2 ≠ TokenType.EOF) :
    ∀ a ty, l.lookup a = some ty → ty ≠ TokenType.EOF := by
  intro a ty h
  induction l with
  | nil => simp [List.lookup] at h
  | cons p rest ih =>
    obtain ⟨k, v⟩ := p
    rw [List.lookup] at h
    split at h
    · simp only [Option.some.injEq] at h
      subst h
      exact hall (k, v) (by simp)
    · exact ih (fun q hq => hall q (List.mem_cons_of_mem _ hq)) h

theorem keywordLookup_ne_eof (s : String) :
    ∀ ty, keywordLookup s = some ty → ty ≠ TokenType.EOF :=
  lookup_val_ne_eof KEYWORDS (by decide) s

/-- Invariant of one scanning-loop iteration: a successful step consumes at
least one character and never pushes an EOF token; a failing step raises
`LEXICAL_ERROR` or `UNTERMINATED_STRING`. -/
def LexStepInv : Except SQLErr (List Token × Nat) → Prop
  | .ok (ts, n) => 1 ≤ n ∧ ∀ t ∈ ts, t.type ≠ TokenType.EOF
  | .error e => e.code = "LEXICAL_ERROR" ∨ e.code = "UNTERMINATED_STRING"

theorem lexStep_sound (opts : LexOptions) (st : LexState) (c : Char) (cs : List Char) :
    LexStepInv (lexStep opts st c cs) := by
  unfold lexStep
  by_cases h1 : isJsSpace c ∧ c ≠ '\n'
  · rw [if_pos h1]
    have hlen : 1 ≤ ((c :: cs).takeWhile (fun x => isJsSpace x && x ≠ '\n')).length := by
      simp [List.takeWhile_cons, h1.1, h1.2]
    split
    · exact ⟨hlen, by intro t ht; simp only [List.mem_singleton] at ht; subst ht; simp⟩
    · exact ⟨hlen, by intro t ht; simp at ht⟩
  · rw [if_neg h1]
    by_cases h2 : c = '\n'
    · rw [if_pos h2]
      split
      · exact ⟨by decide, by intro t ht; simp only [List.mem_singleton] at ht; subst ht; simp⟩
      · exact ⟨by decide, by intro t ht; simp at ht⟩
    · rw [if_neg h2]
      by_cases h3 : c = '-' ∧ cs.head? = some '-'
      · rw [if_pos h3]
        split
        · exact ⟨by omega, by intro t ht; simp only [List.mem_singleton] at ht; subst ht; simp⟩
        · exact ⟨by omega, by intro t ht; simp at ht⟩
      · rw [if_neg h3]
        by_cases h4 : c = '#'
        · rw [if_pos h4]
          split
          · exact ⟨by omega, by intro t ht; simp only [List.mem_singleton] at ht; subst ht; simp⟩
          · exact ⟨by omega, by intro t ht; simp at ht⟩
        · rw [if_neg h4]
          by_cases h5 : c = '/' ∧ cs.head? = some '*'
          · rw [if_pos h5]
            split
            · exact ⟨by omega, by intro t ht; simp only [List.mem_singleton] at ht; subst ht; simp⟩
            · exact ⟨by omega, by intro t ht; simp at ht⟩
          · rw [if_neg h5]
            by_cases h6 : c = quoteChar
            · rw [if_pos h6]
              split
              · exact Or.inr rfl
              · exact ⟨by omega, by intro t ht; simp only [List.mem_singleton] at ht; subst ht; simp⟩
            · rw [if_neg h6]
              by_cases h7 : c = dquoteChar ∨ c = backtickChar
              · rw [if_pos h7]
                split
                · exact Or.inl rfl
                · exact ⟨by omega, by intro t ht; simp only [List.mem_singleton] at ht; subst ht; simp⟩
              · rw [if_neg h7]
                by_cases h8 : isDigitC c
                · rw [if_pos h8]
                  split
                  · exact Or.inl rfl
                  · rename_i v heq
                    refine ⟨scanNumber_pos c cs v h8 heq, ?_⟩
                    intro t ht
                    simp only [List.mem_singleton] at ht
                    subst ht
                    simp
                · rw [if_neg h8]
                  by_cases h9 : isIdentStart c
                  · rw [if_pos h9]
                    have hic : isIdentChar c = true := by
                      simp [isIdentChar, h9]
                    constructor
                    · simp [List.takeWhile_cons, hic]
                    · intro t ht
                      simp only [List.mem_singleton] at ht
                      subst ht
                      simp only []
                      rcases hk : keywordLookup
                          (jsUpper (String.mk ((c :: cs).takeWhile isIdentChar))) with _ | ty
                      · simp [hk]
                      · simp [hk]
                        exact keywordLookup_ne_eof _ _ hk
                  · rw [if_neg h9]
                    by_cases h10 : isOperatorStart c
                    · rw [if_pos h10]
                      split
                      · exact Or.inl rfl
                      · rename_i ty chars heq
                        have hop := readOperatorCore_sound c cs
                        rw [heq] at hop
                        obtain ⟨hl, hne⟩ := hop
                        refine ⟨hl, ?_⟩
                        intro t ht
                        simp only [List.mem_singleton] at ht
                        subst ht
                        exact hne
                    · rw [if_neg h10]
                      by_cases h11 : isPunctuationStart c
                      · rw [if_pos h11]
                        split
                        · exact Or.inl rfl
                        · rename_i ty heq
                          have hp := punctuationType_sound c
                          rw [heq] at hp
                          refine ⟨by decide, ?_⟩
                          intro t ht
                          simp only [List.mem_singleton] at ht
                          subst ht
                          exact hp
                      · rw [if_neg h11]
                        exact Or.inl rfl

/-- Sentinel for exhausted recursion fuel.  The `while` loop of `tokenize`
always terminates because every iteration consumes at least one character
(`lexStep_sound`); the fuel given by `tokenize` is proven sufficient, so
this value is unreachable there. -/
def fuelErr : SQLErr :=
  { message := "recursion fuel exhausted", code := "FUEL", line := 0, column := 0 }

/-- The `tokenize` scanning loop of `src/lexer/lexer.js`: repeatedly run
one loop iteration until the input is exhausted, then append the EOF
token.  Structured with fuel so that the definition computes; `tokenize`
supplies enough fuel for the loop to run to completion. -/
def tokenizeLoop (opts : LexOptions) : Nat → LexState → List Token →
    Except SQLErr (List Token)
  | 0, _, _ => .error fuelErr
  | fuel + 1, st, acc =>
    match st.input with
    | [] => .ok (acc ++ [⟨.EOF, "", st.line, st.col, st.pos, st.pos⟩])
    | c :: cs =>
      match lexStep opts st c cs with
      | .error e => .error e
      | .ok (_ts, n) => tokenizeLoop opts fuel (stepN st n) (acc ++ _ts)

/-- `tokenize` of the `Lexer` class, run on a fresh lexer state. -/
def tokenize (input : String) (opts : LexOptions) : Except SQLErr (List Token) :=
  tokenizeLoop opts (input.length + 1) { input := input.data, pos := 0, line := 1, col := 1 } []

theorem tokenizeLoop_nil (opts : LexOptions) (f : Nat) (st : LexState)
    (acc : List Token) (hin : st.input = []) :
    tokenizeLoop opts (f + 1) st acc =
      .ok (acc ++ [⟨.EOF, "", st.line, st.col, st.pos, st.pos⟩]) := by
  obtain ⟨inp, p, l, co⟩ := st
  replace hin : inp = [] := hin
  subst hin
  rfl

theorem tokenizeLoop_cons_err (opts : LexOptions) (f : Nat) (st : LexState)
    (acc : List Token) (c : Char) (cs : List Char) (e : SQLErr)
    (hin : st.input = c :: cs) (hstep : lexStep opts st c cs = .error e) :
    tokenizeLoop opts (f + 1) st acc = .error e := by
  obtain ⟨inp, p, l, co⟩ := st
  replace hin : inp = c :: cs := hin
  subst hin
  simp only [tokenizeLoop]
  rw [hstep]

theorem tokenizeLoop_cons_ok (opts : LexOptions) (f : Nat) (st : LexState)
    (acc : List Token) (c : Char) (cs : List Char) (ts : List Token) (n : Nat)
    (hin : st.input = c :: cs) (hstep : lexStep opts st c cs = .ok (ts, n)) :
    tokenizeLoop opts (f + 1) st acc = tokenizeLoop opts f (stepN st n) (acc ++ ts) := by
  obtain ⟨inp, p, l, co⟩ := st
  replace hin : inp = c :: cs := hin
  subst hin
  simp only [tokenizeLoop]
  rw [hstep]

theorem tokenizeLoop_sound (opts : LexOptions) :
    ∀ (fuel : Nat) (st : LexState) (acc : List Token),
      st.input.length < fuel →
      (∀ u ∈ acc, u.type ≠ TokenType.EOF) →
      (∀ e, tokenizeLoop opts fuel st acc = .error e →
          e.code = "LEXICAL_ERROR" ∨ e.code = "UNTERMINATED_STRING") ∧
      (∀ toks, tokenizeLoop opts fuel st acc = .ok toks →
          ∃ init t, toks = init ++ [t] ∧ t.type = TokenType.EOF ∧
            ∀ u ∈ init, u.type ≠ TokenType.EOF) := by
  intro fuel
  induction fuel with
  | zero =>
    intro st acc hlen hacc
    omega
  | succ f ih =>
    intro st acc hlen hacc
    rcases hin : st.input with _ | ⟨c, cs⟩
    · rw [tokenizeLoop_nil opts f st acc hin]
      constructor
      · intro e he
        simp at he
      · intro toks htoks
        simp only [Except.ok.injEq] at htoks
        subst htoks
        exact ⟨acc, _, rfl, rfl, hacc⟩
    · have hinv := lexStep_sound opts st c cs
      rcases hstep : lexStep opts st c cs with e2 | ⟨ts, n⟩
      · rw [hstep] at hinv
        rw [tokenizeLoop_cons_err opts f st acc c cs e2 hin hstep]
        constructor
        · intro e he
          simp only [Except.error.injEq] at he
          subst he
          exact hinv
        · intro toks htoks
          simp at htoks
      · rw [hstep] at hinv
        obtain ⟨hn, hts⟩ := hinv
        rw [tokenizeLoop_cons_ok opts f st acc c cs ts n hin hstep]
        have hlen2 : (stepN st n).input.length < f := by
          rw [hin] at hlen
          rw [stepN_input, hin]
          simp only [List.length_drop, List.length_cons] at *
          omega
        have hacc2 : ∀ u ∈ acc ++ ts, u.type ≠ TokenType.EOF := by
          intro u hu
          rcases List.mem_append.mp hu with h | h
          · exact hacc u h
          · exact hts u h
        exact ih (stepN st n) (acc ++ ts) hlen2 hacc2

theorem scanMLComment_no_term :
    ∀ l, hasMLTerminator l = false → scanMLComment l = (l, l.length) := by
  intro l
  induction l using scanMLComment.induct with
  | case1 =>
    intro h
    rfl
  | case2 rest =>
    intro h
    simp [hasMLTerminator] at h
  | case3 c cs hne ih =>
    intro h
    have hterm : hasMLTerminator cs = false := by
      rw [hasMLTerminator.eq_def] at h
      split at h
      · rename_i heq
        simp at heq
      · rename_i tail heq
        simp only [List.cons.injEq] at heq
        exact (hne tail heq.1 heq.2).elim
      · rename_i c2 cs2 hne2 heq
        simp only [List.cons.injEq] at heq
        obtain ⟨h1, h2⟩ := heq
        subst h2
        exact h
    rw [scanMLComment.eq_def]
    split
    · rename_i heq
      simp at heq
    · rename_i tail heq
      simp only [List.cons.injEq] at heq
      exact (hne tail heq.1 heq.2).elim
    · rename_i c2 cs2 hne2 heq
      simp only [List.cons.injEq] at heq
      obtain ⟨h1, h2⟩ := heq
      subst h1
      subst h2
      rw [ih hterm]
      simp

/-- Extract the token list of a successful tokenization (used by closed
witness statements). -/
def okToks (r : Except SQLErr (List Token)) : List Token :=
  match r with
  | .ok t => t
  | .error _ => []

/-- C6 (amended): on reaching an unterminated `/*`, `readMultiLineComment`
consumes the opener and the entire remaining input as comment text without
raising an error, and tokenization completes with the EOF token. -/
theorem unterminated_comment_consumed (opts : LexOptions)
    (hcm : opts.includeComments = false) (fuel : Nat) (st : LexState)
    (acc : List Token) (rest : List Char)
    (hin : st.input = '/' :: '*' :: rest) (hterm : hasMLTerminator rest = false) :
    tokenizeLoop opts (fuel + 2) st acc =
      .ok (acc ++ [⟨.EOF, "", (stepN st (2 + rest.length)).line,
        (stepN st (2 + rest.length)).col, (stepN st (2 + rest.length)).pos,
        (stepN st (2 + rest.length)).pos⟩]) := by
  have hstep : lexStep opts st '/' ('*' :: rest) = .ok ([], 2 + rest.length) := by
    unfold lexStep
    rw [if_neg (by decide)]
    rw [if_neg (by decide)]
    rw [if_neg (fun hco => absurd hco.1 (by decide))]
    rw [if_neg (by decide)]
    rw [if_pos ⟨rfl, rfl⟩]
    rw [hcm]
    rw [if_neg (by simp)]
    simp only [List.drop_succ_cons, List.drop_zero]
    rw [scanMLComment_no_term rest hterm]
  rw [tokenizeLoop_cons_ok opts (fuel + 1) st acc '/' ('*' :: rest) []
      (2 + rest.length) hin hstep]
  rw [tokenizeLoop_nil opts fuel (stepN st (2 + rest.length)) (acc ++ [])
      (by
        rw [stepN_input, hin]
        refine List.drop_eq_nil_of_le ?_
        simp
        omega)]
  simp

/-- C6 (counterexample): the input `/* abc` opens a multi-line comment that
is never closed, yet the lexer raises no error at all: it returns
successfully with only the EOF token.  This refutes the claim that an
unterminated `/*` raises a lexical error at the opening position. -/
theorem c6_counterexample :
    tokenize "/* abc" ⟨false, false⟩ = .ok [⟨TokenType.EOF, "", 1, 7, 6, 6⟩] := by
  rfl

theorem c6_witness :
    tokenizeLoop ⟨false, false⟩ 7 ⟨("/* abc").data, 0, 1, 1⟩ [] =
      .ok ([] ++ [⟨.EOF, "",
        (stepN ⟨("/* abc").data, 0, 1, 1⟩ (2 + (" abc").data.length)).line,
        (stepN ⟨("/* abc").data, 0, 1, 1⟩ (2 + (" abc").data.length)).col,
        (stepN ⟨("/* abc").data, 0, 1, 1⟩ (2 + (" abc").data.length)).pos,
        (stepN ⟨("/* abc").data, 0, 1, 1⟩ (2 + (" abc").data.length)).pos⟩]) :=
  unterminated_comment_consumed ⟨false, false⟩ rfl 5 ⟨("/* abc").data, 0, 1, 1⟩ []
    ((" abc").data) rfl (by decide)

/-- C7: for every input string and options, tokenization either returns a
non-empty token list whose last element is the only EOF token, or raises an
error whose kind is `LEXICAL_ERROR` or `UNTERMINATED_STRING`. -/
theorem tokenize_eof_or_lexical (s : String) (opts : LexOptions) :
    (∀ toks, tokenize s opts = .ok toks →
        toks ≠ [] ∧ ∃ init t, toks = init ++ [t] ∧ t.type = TokenType.EOF ∧
          ∀ u ∈ init, u.type ≠ TokenType.EOF) ∧
    (∀ e, tokenize s opts = .error e →
        e.code = "LEXICAL_ERROR" ∨ e.code = "UNTERMINATED_STRING") := by
  have hlen : (⟨s.data, 0, 1, 1⟩ : LexState).input.length < s.length + 1 := by
    show s.data.length < s.length + 1
    have hsl : s.length = s.data.length := rfl
    omega
  have h := tokenizeLoop_sound opts (s.length + 1) ⟨s.data, 0, 1, 1⟩ [] hlen
    (by intro u hu; simp at hu)
  constructor
  · intro toks ht
    obtain ⟨init, t, h1, h2, h3⟩ := h.2 toks ht
    refine ⟨?_, init, t, h1, h2, h3⟩
    rw [h1]
    simp
  · exact h.1

theorem c7_witness :
    okToks (tokenize "SELECT 1" ⟨false, false⟩) ≠ [] ∧
      ∃ init t, okToks (tokenize "SELECT 1" ⟨false, false⟩) = init ++ [t] ∧
        t.type = TokenType.EOF ∧ ∀ u ∈ init, u.type ≠ TokenType.EOF :=
  (tokenize_eof_or_lexical "SELECT 1" ⟨false, false⟩).1
    (okToks (tokenize "SELECT 1" ⟨false, false⟩)) (by rfl)

/-! ## AST model (`src/ast/ast-nodes.js`) -/

/-- JavaScript values carried by `Literal` nodes and produced by the
analyzer's `extractValue`: `null`, strings, numbers and booleans.  Numbers
are modelled as exact rationals; every numeric value reached in the
theorems below is producible exactly by a JS double. -/
inductive JsVal where
  | nul
  | str (s : String)
  | num (q : Rat)
  | bool (b : Bool)
deriving DecidableEq, Repr

/-- Numeric value of a digit string. -/
def digitsVal (l : List Char) : Nat :=
  l.foldl (fun a c => a * 10 + (c.toNat - 48)) 0

/-- Model of `parseInt(text, 10)` as used on `NUMBER` token texts (which
always begin with a digit): the integer value of the maximal digit prefix,
conversion stopping at the first non-digit character. -/
def jsParseIntDec (s : String) : Rat :=
  mkRat (digitsVal (s.data.takeWhile isDigitC)) 1

/-- Model of `parseFloat(text)` as used on `NUMBER` token texts of the form
`digits [. digits] [e|E [+|-] digits]` produced by `readNumber`.  The value
is assembled with `mkRat` over natural mantissa and power-of-ten scale. -/
def jsParseFloatDec (s : String) : Rat :=
  let ds := s.data
  let ip := ds.takeWhile isDigitC
  let r1 := ds.drop ip.length
  let fp : List Char :=
    match r1 with
    | '.' :: t => t.takeWhile isDigitC
    | _ => []
  let r2 : List Char :=
    match r1 with
    | '.' :: t => t.drop fp.length
    | _ => r1
  let m : Nat := digitsVal ip * 10 ^ fp.length + digitsVal fp
  let k : Nat := fp.length
  match r2 with
  | c :: t =>
    if c = 'e' ∨ c = 'E' then
      let neg : Bool :=
        match t with
        | '-' :: _ => true
        | _ => false
      let t2 : List Char :=
        match t with
        | '-' :: t2 => t2
        | '+' :: t2 => t2
        | _ => t
      let mag : Nat := digitsVal (t2.takeWhile isDigitC)
      if neg then mkRat m (10 ^ k * 10 ^ mag)
      else mkRat (m * 10 ^ mag) (10 ^ k)
    else mkRat m (10 ^ k)
  | [] => mkRat m (10 ^ k)

/-- AST nodes (`src/ast/ast-nodes.js`).  One constructor per node class;
`null`-able fields are `Option`s.  The `aliased` constructor models the
dynamic `expr.alias = alias` property assignment done by
`parseSelectColumns` on nodes that have no `alias` field of their own;
analyzer functions look through it exactly as JS property access does. -/
inductive Node where
  | selectStmt (distinct : Bool) (columns : List Node)
      (fromC whereC groupByC havingC orderByC limitC withC : Option Node)
  | insertStmt (table : Node) (columns : List String) (values : List Node)
  | updateStmt (table : Node) (setA : List Node) (whereC : Option Node)
  | deleteStmt (fromT : Node) (whereC : Option Node)
  | unionStmt (left right : Node) (unionType : String) (all : Bool)
      (orderByC limitC withC : Option Node)
  | withClause (recursive : Bool) (expressions : List Node)
  | cte (name : String) (columns : Option (List String)) (query : Node)
  | windowFunction (fn : Node) (over : Node)
  | overClause (partitionBy : Option (List Node)) (orderByC : Option (List Node))
      (frame : Option Node)
  | windowFrame (frameType : String) (start : Node) (frameEnd : Option Node)
  | boundUnbounded (direction : String)
  | boundCurrentRow
  | boundInterval (value : Node) (unit direction : String)
  | boundOffset (value : Node) (direction : String)
  | binary (left : Node) (op : String) (right : Node)
  | unary (op : String) (operand : Node)
  | functionCall (name : String) (args : List Node) (distinct : Bool) (isExtract : Bool)
  | caseExpr (scrutinee : Option Node) (whenClauses : List Node) (elseClause : Option Node)
  | whenClause (condition result : Node)
  | identNode (name : String) (table : Option String)
  | tableRef (name : String) (al : Option String) (schema : Option String)
  | columnRef (name : String) (table : Option String) (al : Option String)
  | wildcard
  | literal (value : JsVal) (dataType : String)
  | fromClause (tables : List Node) (joins : List Node)
  | whereClause (condition : Node)
  | joinClause (joinType : String) (table : Node) (condition : Option Node)
  | groupByClause (columns : List Node)
  | havingClause (condition : Node)
  | orderByClause (columns : List Node)
  | orderByColumn (column : Node) (direction : String)
  | limitClause (count : Node) (offsetE : Option Node)
  | assignment (column : String) (value : Node)
  | valuesList (values : List Node)
  | betweenRange (rangeStart rangeEnd : Node)
  | intervalExpr (value : Node) (unit : String)
  | subQuery (query : Node) (al : Option String)
  | aliased (al : String) (node : Node)
deriving Repr

/-- The `type` discriminant string of each node class (the `aliased`
wrapper is transparent: in JS the alias lives on the node itself). -/
def Node.typeName : Node → String
  | .selectStmt .. => "SelectStatement"
  | .insertStmt .. => "InsertStatement"
  | .updateStmt .. => "UpdateStatement"
  | .deleteStmt .. => "DeleteStatement"
  | .unionStmt .. => "UnionStatement"
  | .withClause .. => "WithClause"
  | .cte .. => "CTEExpression"
  | .windowFunction .. => "WindowFunction"
  | .overClause .. => "OverClause"
  -- WindowFrame passes `type: frameType` in its properties, and
  -- `Object.assign` in the ASTNode constructor overwrites the class tag:
  -- the node's `type` is the frame type string (ROWS or RANGE).
  | .windowFrame frameType _ _ => frameType
  -- frame bounds are plain objects `{ type: ..., ... }`, not ASTNodes
  | .boundUnbounded .. => "UNBOUNDED"
  | .boundCurrentRow => "CURRENT_ROW"
  | .boundInterval .. => "INTERVAL"
  | .boundOffset .. => "OFFSET"
  | .binary .. => "BinaryExpression"
  | .unary .. => "UnaryExpression"
  | .functionCall .. => "FunctionCall"
  | .caseExpr .. => "CaseExpression"
  | .whenClause .. => "WhenClause"
  | .identNode .. => "Identifier"
  | .tableRef .. => "TableReference"
  | .columnRef .. => "ColumnReference"
  | .wildcard => "Wildcard"
  | .literal .. => "Literal"
  | .fromClause .. => "FromClause"
  | .whereClause .. => "WhereClause"
  | .joinClause .. => "JoinClause"
  | .groupByClause .. => "GroupByClause"
  | .havingClause .. => "HavingClause"
  | .orderByClause .. => "OrderByClause"
  | .orderByColumn .. => "OrderByColumn"
  | .limitClause .. => "LimitClause"
  | .assignment .. => "Assignment"
  | .valuesList .. => "ValuesList"
  | .betweenRange .. => "BetweenRange"
  | .intervalExpr .. => "Interval"
  | .subQuery .. => "SubQuery"
  | .aliased _ e => e.typeName

/-- `expr.alias = alias` (in `parseSelectColumns`): nodes with an `alias`
field get it overwritten; any other node gets the dynamic property,
modelled by the `aliased` wrapper. -/
def setAlias (n : Node) (a : String) : Node :=
  match n with
  | .tableRef name _ schema => .tableRef name (some a) schema
  | .columnRef name table _ => .columnRef name table (some a)
  | .subQuery q _ => .subQuery q (some a)
  | .aliased _ e => .aliased a e
  | _ => .aliased a n

/-- `expr.alias` as read by the analyzer (absent ⇒ `none`). -/
def aliasOf : Node → Option String
  | .tableRef _ a _ => a
  | .columnRef _ _ a => a
  | .subQuery _ a => a
  | .aliased a _ => some a
  | _ => none

/-! ## Parser (`src/parser/parser.js`) -/

/-- The string form of each token type (the JS `TokenType` values are the
strings themselves); used in `UNEXPECTED_TOKEN` messages and context. -/
def typeStr : TokenType → String
  | .IDENTIFIER => "IDENTIFIER" | .STRING => "STRING" | .NUMBER => "NUMBER"
  | .BOOLEAN => "BOOLEAN" | .NULL => "NULL"
  | .CREATE => "CREATE" | .DROP => "DROP" | .ALTER => "ALTER" | .TABLE => "TABLE"
  | .INDEX => "INDEX" | .VIEW => "VIEW" | .DATABASE => "DATABASE" | .SCHEMA => "SCHEMA"
  | .SELECT => "SELECT" | .INSERT => "INSERT" | .UPDATE => "UPDATE" | .DELETE => "DELETE"
  | .FROM => "FROM" | .WHERE => "WHERE" | .INTO => "INTO" | .VALUES => "VALUES"
  | .SET => "SET"
  | .JOIN => "JOIN" | .INNER => "INNER" | .LEFT => "LEFT" | .RIGHT => "RIGHT"
  | .FULL => "FULL" | .OUTER => "OUTER" | .CROSS => "CROSS" | .ON => "ON"
  | .USING => "USING" | .GROUP => "GROUP" | .BY => "BY" | .HAVING => "HAVING"
  | .ORDER => "ORDER" | .ASC => "ASC" | .DESC => "DESC" | .LIMIT => "LIMIT"
  | .OFFSET => "OFFSET" | .UNION => "UNION" | .INTERSECT => "INTERSECT"
  | .EXCEPT => "EXCEPT" | .ALL => "ALL" | .ANY => "ANY" | .DISTINCT => "DISTINCT"
  | .WITH => "WITH" | .RECURSIVE => "RECURSIVE" | .OVER => "OVER"
  | .PARTITION => "PARTITION" | .WINDOW => "WINDOW" | .ROWS => "ROWS"
  | .RANGE => "RANGE" | .UNBOUNDED => "UNBOUNDED" | .PRECEDING => "PRECEDING"
  | .FOLLOWING => "FOLLOWING" | .CURRENT => "CURRENT" | .ROW => "ROW"
  | .ROW_NUMBER => "ROW_NUMBER" | .RANK => "RANK" | .DENSE_RANK => "DENSE_RANK"
  | .LEAD => "LEAD" | .LAG => "LAG" | .FIRST_VALUE => "FIRST_VALUE"
  | .LAST_VALUE => "LAST_VALUE" | .NTH_VALUE => "NTH_VALUE"
  | .INT => "INT" | .INTEGER => "INTEGER" | .VARCHAR => "VARCHAR" | .CHAR => "CHAR"
  | .TEXT => "TEXT" | .DECIMAL => "DECIMAL" | .FLOAT => "FLOAT" | .DOUBLE => "DOUBLE"
  | .DATE => "DATE" | .TIME => "TIME" | .TIMESTAMP => "TIMESTAMP"
  | .BOOLEAN_TYPE => "BOOLEAN_TYPE" | .INTERVAL => "INTERVAL"
  | .YEAR => "YEAR" | .MONTH => "MONTH" | .DAY => "DAY" | .HOUR => "HOUR"
  | .MINUTE => "MINUTE" | .SECOND => "SECOND"
  | .PRIMARY => "PRIMARY" | .FOREIGN => "FOREIGN" | .KEY => "KEY"
  | .UNIQUE => "UNIQUE" | .NOT => "NOT" | .CONSTRAINT => "CONSTRAINT"
  | .CHECK => "CHECK" | .DEFAULT => "DEFAULT" | .AUTO_INCREMENT => "AUTO_INCREMENT"
  | .AND => "AND" | .OR => "OR" | .IN => "IN" | .EXISTS => "EXISTS"
  | .BETWEEN => "BETWEEN" | .LIKE => "LIKE" | .ILIKE => "ILIKE" | .IS => "IS"
  | .AS => "AS"
  | .COUNT => "COUNT" | .SUM => "SUM" | .AVG => "AVG" | .MIN => "MIN" | .MAX => "MAX"
  | .CASE => "CASE" | .WHEN => "WHEN" | .THEN => "THEN" | .ELSE => "ELSE"
  | .END => "END"
  | .EQUALS => "EQUALS" | .NOT_EQUALS => "NOT_EQUALS" | .LESS_THAN => "LESS_THAN"
  | .LESS_THAN_EQUALS => "LESS_THAN_EQUALS" | .GREATER_THAN => "GREATER_THAN"
  | .GREATER_THAN_EQUALS => "GREATER_THAN_EQUALS"
  | .PLUS => "PLUS" | .MINUS => "MINUS" | .MULTIPLY => "MULTIPLY"
  | .DIVIDE => "DIVIDE" | .MODULO => "MODULO" | .CONCAT => "CONCAT"
  | .SEMICOLON => "SEMICOLON" | .COMMA => "COMMA" | .DOT => "DOT"
  | .LEFT_PAREN => "LEFT_PAREN" | .RIGHT_PAREN => "RIGHT_PAREN"
  | .LEFT_BRACKET => "LEFT_BRACKET" | .RIGHT_BRACKET => "RIGHT_BRACKET"
  | .WHITESPACE => "WHITESPACE" | .COMMENT => "COMMENT" | .NEWLINE => "NEWLINE"
  | .EOF => "EOF" | .UNKNOWN => "UNKNOWN"

/-- Parser options (`strict`; `allowPartialParsing` is never read). -/
structure ParseOptions where
  strict : Bool := false
deriving DecidableEq, Repr

/-- Parser cursor: the filtered token list and the current position, the
mutable fields of the `Parser` class. -/
structure PState where
  tokens : List Token
  position : Nat
deriving Repr

/-- The constructor's trivia filter: whitespace, newline and comment
tokens are removed before parsing. -/
def filterTrivia (ts : List Token) : List Token :=
  ts.filter (fun t =>
    !(t.type == TokenType.WHITESPACE || t.type == TokenType.NEWLINE ||
      t.type == TokenType.COMMENT))

/-- `current()`. -/
def PState.cur (st : PState) : Option Token :=
  st.tokens.get? st.position

/-- `advance()` (which does not move past the end of the token list). -/
def PState.advance (st : PState) : PState :=
  if st.position < st.tokens.length then { st with position := st.position + 1 }
  else st

/-- `match(tokenType)`. -/
def PState.matchT (st : PState) (ty : TokenType) : Bool :=
  match st.cur with
  | some t => t.type == ty
  | none => false

/-- `matchAny(...tokenTypes)`. -/
def PState.matchAny (st : PState) (tys : List TokenType) : Bool :=
  match st.cur with
  | some t => tys.contains t.type
  | none => false

/-- `consume(tokenType)`. -/
def PState.consume (st : PState) (ty : TokenType) : Option Token × PState :=
  if st.matchT ty then (st.cur, st.advance) else (none, st)

/-- Line of the last token (`this.tokens[len-1]?.line || 1`). -/
def PState.lastLine (st : PState) : Nat :=
  match st.tokens.getLast? with
  | some t => if t.line = 0 then 1 else t.line
  | none => 1

/-- Column of the last token (`this.tokens[len-1]?.column || 1`). -/
def PState.lastCol (st : PState) : Nat :=
  match st.tokens.getLast? with
  | some t => if t.column = 0 then 1 else t.column
  | none => 1

/-- `expect(tokenType)`. -/
def expectT (st : PState) (ty : TokenType) : Except SQLErr (Token × PState) :=
  match st.cur with
  | none => .error (SQLErr.unexpectedEnd st.lastLine st.lastCol)
  | some t =>
    if t.type == TokenType.EOF then
      .error (SQLErr.unexpectedEnd st.lastLine st.lastCol)
    else if t.type == ty then
      .ok (t, st.advance)
    else
      .error (SQLErr.unexpectedToken (typeStr ty) (typeStr t.type) t.line t.column)

/-- `canBeAlias(token)`.  The JS method dereferences the token, so a `none`
argument (current position past the end of the token list) would throw a
`TypeError`; this can only happen on token lists that do not end in EOF,
and is modelled as `false`. -/
def canBeAlias (t : Option Token) : Bool :=
  match t with
  | none => false
  | some t =>
    t.type == TokenType.IDENTIFIER ||
    [TokenType.DATE, TokenType.TIME, TokenType.TIMESTAMP, TokenType.YEAR,
     TokenType.MONTH, TokenType.DAY, TokenType.HOUR, TokenType.MINUTE,
     TokenType.SECOND, TokenType.COUNT, TokenType.SUM, TokenType.AVG,
     TokenType.MIN, TokenType.MAX,
     TokenType.ROW_NUMBER, TokenType.RANK, TokenType.DENSE_RANK,
     TokenType.LEAD, TokenType.LAG, TokenType.FIRST_VALUE,
     TokenType.LAST_VALUE, TokenType.NTH_VALUE].contains t.type

/-- `isFunctionKeyword(token)`. -/
def isFunctionKeyword (t : Token) : Bool :=
  [TokenType.DATE, TokenType.TIME, TokenType.TIMESTAMP, TokenType.COUNT,
   TokenType.SUM, TokenType.AVG, TokenType.MIN, TokenType.MAX,
   TokenType.YEAR, TokenType.MONTH, TokenType.DAY,
   TokenType.ROW_NUMBER, TokenType.RANK, TokenType.DENSE_RANK,
   TokenType.LEAD, TokenType.LAG, TokenType.FIRST_VALUE,
   TokenType.LAST_VALUE, TokenType.NTH_VALUE].contains t.type

/-- `this.current()?.line || 1`. -/
def PState.curLineOr1 (st : PState) : Nat :=
  match st.cur with
  | some t => if t.line = 0 then 1 else t.line
  | none => 1

/-- `this.current()?.column || 1`. -/
def PState.curColOr1 (st : PState) : Nat :=
  match st.cur with
  | some t => if t.column = 0 then 1 else t.column
  | none => 1

/-- `new SQLError(message, lineVal, colVal)`: a three-argument call of the
five-parameter constructor (as in the IS/ANY/ALL error sites of
`parser.js`), so the line number lands in the `code` field, the column in
`line`, and `column` keeps its default 0. -/
def sqlErrArity3 (message : String) (lineVal colVal : Nat) : SQLErr :=
  { message := message, code := toString lineVal, line := colVal, column := 0 }

mutual

/-- `parseStatement`. -/
def parseStatement : Nat → PState → Except SQLErr (Node × PState)
  | 0, _ => .error fuelErr
  | fuel + 1, st =>
    match st.cur with
    | none => .error (SQLErr.unexpectedEnd 1 1)
    | some t =>
      match t.type with
      | .WITH => parseWithStatement fuel st
      | .SELECT => parseUnionStatement fuel st
      | .INSERT => parseInsertStatement fuel st
      | .UPDATE => parseUpdateStatement fuel st
      | .DELETE => parseDeleteStatement fuel st
      | _ => .error (SQLErr.unexpectedToken "WITH, SELECT, INSERT, UPDATE, or DELETE"
          (typeStr t.type) t.line t.column)
termination_by structural f a1 => f

/-- `parseUnionStatement`. -/
def parseUnionStatement : Nat → PState → Except SQLErr (Node × PState)
  | 0, _ => .error fuelErr
  | fuel + 1, st => do
    let (left, st1) ← parseSelectStatement fuel st
    if st1.matchT .UNION then do
      let st2 := st1.advance
      let (allTok, st3) := st2.consume .ALL
      let (right, st4) ← parseUnionStatementWithoutOrderLimit fuel st3
      let (orderByClause, st5) ←
        if st4.matchT .ORDER then do
          let (o, s) ← parseOrderByClause fuel st4
          pure (some o, s)
        else pure (none, st4)
      let (limitClause, st6) ←
        if st5.matchT .LIMIT then do
          let (l, s) ← parseLimitClause fuel st5
          pure (some l, s)
        else pure (none, st5)
      pure (Node.unionStmt left right (if allTok.isSome then "UNION ALL" else "UNION")
        allTok.isSome orderByClause limitClause none, st6)
    else do
      let (orderByClause, st2) ←
        if st1.matchT .ORDER then do
          let (o, s) ← parseOrderByClause fuel st1
          pure (some o, s)
        else pure (none, st1)
      let (limitClause, st3) ←
        if st2.matchT .LIMIT then do
          let (l, s) ← parseLimitClause fuel st2
          pure (some l, s)
        else pure (none, st2)
      -- `if (orderByClause || limitClause) { left.orderBy = ...; left.limit = ... }`
      if orderByClause.isSome || limitClause.isSome then
        match left with
        | .selectStmt d c f w g h _ _ wc =>
          pure (Node.selectStmt d c f w g h orderByClause limitClause wc, st3)
        | other => pure (other, st3)
      else
        pure (left, st3)
termination_by structural f a1 => f

/-- `parseUnionStatementWithoutOrderLimit`. -/
def parseUnionStatementWithoutOrderLimit : Nat → PState → Except SQLErr (Node × PState)
  | 0, _ => .error fuelErr
  | fuel + 1, st => do
    let (left, st1) ← parseSelectStatementWithoutOrderLimit fuel st
    if st1.matchT .UNION then do
      let st2 := st1.advance
      let (allTok, st3) := st2.consume .ALL
      let (right, st4) ← parseUnionStatementWithoutOrderLimit fuel st3
      pure (Node.unionStmt left right (if allTok.isSome then "UNION ALL" else "UNION")
        allTok.isSome none none none, st4)
    else
      pure (left, st1)
termination_by structural f a1 => f

/-- `parseSelectStatementWithoutOrderLimit`. -/
def parseSelectStatementWithoutOrderLimit : Nat → PState → Except SQLErr (Node × PState)
  | 0, _ => .error fuelErr
  | fuel + 1, st => do
    let (_, st1) ← expectT st .SELECT
    let (distinctTok, st2) := st1.consume .DISTINCT
    let (columns, st3) ← parseSelectColumns fuel st2
    let (fromClause, st4) ←
      if st3.matchT .FROM then do
        let (f, s) ← parseFromClause fuel st3
        pure (some f, s)
      else pure (none, st3)
    let (whereClause, st5) ←
      if st4.matchT .WHERE then do
        let (w, s) ← parseWhereClause fuel st4
        pure (some w, s)
      else pure (none, st4)
    let (groupByClause, st6) ←
      if st5.matchT .GROUP then do
        let (g, s) ← parseGroupByClause fuel st5
        pure (some g, s)
      else pure (none, st5)
    let (havingClause, st7) ←
      if st6.matchT .HAVING then do
        let (h, s) ← parseHavingClause fuel st6
        pure (some h, s)
      else pure (none, st6)
    pure (Node.selectStmt distinctTok.isSome columns fromClause whereClause
      groupByClause havingClause none none none, st7)
termination_by structural f a1 => f

/-- `parseSelectStatement` (ORDER BY / LIMIT handled by the caller). -/
def parseSelectStatement : Nat → PState → Except SQLErr (Node × PState)
  | 0, _ => .error fuelErr
  | fuel + 1, st => do
    let (_, st1) ← expectT st .SELECT
    let (distinctTok, st2) := st1.consume .DISTINCT
    let (columns, st3) ← parseSelectColumns fuel st2
    let (fromClause, st4) ←
      if st3.matchT .FROM then do
        let (f, s) ← parseFromClause fuel st3
        pure (some f, s)
      else pure (none, st3)
    let (whereClause, st5) ←
      if st4.matchT .WHERE then do
        let (w, s) ← parseWhereClause fuel st4
        pure (some w, s)
      else pure (none, st4)
    let (groupByClause, st6) ←
      if st5.matchT .GROUP then do
        let (g, s) ← parseGroupByClause fuel st5
        pure (some g, s)
      else pure (none, st5)
    let (havingClause, st7) ←
      if st6.matchT .HAVING then do
        let (h, s) ← parseHavingClause fuel st6
        pure (some h, s)
      else pure (none, st6)
    pure (Node.selectStmt distinctTok.isSome columns fromClause whereClause
      groupByClause havingClause none none none, st7)
termination_by structural f a1 => f

/-- `parseWithStatement`. -/
def parseWithStatement : Nat → PState → Except SQLErr (Node × PState)
  | 0, _ => .error fuelErr
  | fuel + 1, st => do
    let (_, st1) ← expectT st .WITH
    let (recTok, st2) := st1.consume .RECURSIVE
    let (expressions, st3) ← parseCteLoop fuel st2 []
    let (mainQuery, st4) ← parseUnionStatement fuel st3
    -- `mainQuery.with = withClause` (mainQuery is a Select or Union node)
    let withCl := Node.withClause recTok.isSome expressions
    let mainQuery2 :=
      match mainQuery with
      | .selectStmt d c f w g h o l _ => Node.selectStmt d c f w g h o l (some withCl)
      | .unionStmt l r u a o li _ => Node.unionStmt l r u a o li (some withCl)
      | other => other
    pure (mainQuery2, st4)
termination_by structural f a1 => f

/-- The CTE do-while loop of `parseWithStatement`. -/
def parseCteLoop : Nat → PState → List Node → Except SQLErr (List Node × PState)
  | 0, _, _ => .error fuelErr
  | fuel + 1, st, acc => do
    let (nameTok, st1) ← expectT st .IDENTIFIER
    let (columns, st2) ←
      if st1.matchT .LEFT_PAREN then do
        let st1a := st1.advance
        let (cols, st1b) ← parseIdentListLoop fuel st1a []
        let (_, st1c) ← expectT st1b .RIGHT_PAREN
        pure (some cols, st1c)
      else pure (none, st1)
    let (_, st3) ← expectT st2 .AS
    let (_, st4) ← expectT st3 .LEFT_PAREN
    let (query, st5) ← parseUnionStatement fuel st4
    let (_, st6) ← expectT st5 .RIGHT_PAREN
    let acc2 := acc ++ [Node.cte nameTok.value columns query]
    let (comma, st7) := st6.consume .COMMA
    if comma.isSome then
      parseCteLoop fuel st7 acc2
    else
      pure (acc2, st7)
termination_by structural f a1 a2 => f

/-- The `expect(IDENTIFIER)` do-while-comma loops (CTE column lists and
INSERT column lists). -/
def parseIdentListLoop : Nat → PState → List String → Except SQLErr (List String × PState)
  | 0, _, _ => .error fuelErr
  | fuel + 1, st, acc => do
    let (tok, st1) ← expectT st .IDENTIFIER
    let acc2 := acc ++ [tok.value]
    let (comma, st2) := st1.consume .COMMA
    if comma.isSome then
      parseIdentListLoop fuel st2 acc2
    else
      pure (acc2, st2)
termination_by structural f a1 a2 => f

/-- `parseSelectColumns`. -/
def parseSelectColumns : Nat → PState → Except SQLErr (List Node × PState)
  | 0, _ => .error fuelErr
  | fuel + 1, st => parseSelectColumnsLoop fuel st []
termination_by structural f a1 => f

/-- The do-while-comma loop of `parseSelectColumns`. -/
def parseSelectColumnsLoop : Nat → PState → List Node → Except SQLErr (List Node × PState)
  | 0, _, _ => .error fuelErr
  | fuel + 1, st, acc => do
    let (item, st1) ←
      if st.matchT .MULTIPLY then
        pure (Node.wildcard, st.advance)
      else do
        let (expr, sta) ← parseExpression fuel st
        if sta.matchT .AS then
          let stb := sta.advance
          if canBeAlias stb.cur then
            match stb.cur with
            | some tk => pure (setAlias expr tk.value, stb.advance)
            | none => .error (SQLErr.unexpectedToken "alias identifier" "null" 0 0)
          else
            match stb.cur with
            | some tk => .error (SQLErr.unexpectedToken "alias identifier"
                (typeStr tk.type) tk.line tk.column)
            -- JS dereferences `this.current()` here and would throw a
            -- TypeError when it is null (possible only without an EOF
            -- sentinel); modelled as the same UNEXPECTED_TOKEN failure.
            | none => .error (SQLErr.unexpectedToken "alias identifier" "null" 0 0)
        else if canBeAlias sta.cur then
          match sta.cur with
          | some tk => pure (setAlias expr tk.value, sta.advance)
          | none => pure (expr, sta)
        else
          pure (expr, sta)
    let acc2 := acc ++ [item]
    let (comma, st2) := st1.consume .COMMA
    if comma.isSome then
      parseSelectColumnsLoop fuel st2 acc2
    else
      pure (acc2, st2)
termination_by structural f a1 a2 => f

/-- `parseFromClause`. -/
def parseFromClause : Nat → PState → Except SQLErr (Node × PState)
  | 0, _ => .error fuelErr
  | fuel + 1, st => do
    let (_, st1) ← expectT st .FROM
    let (tables, joins, st2) ← parseFromTablesLoop fuel st1 [] []
    pure (Node.fromClause tables joins, st2)
termination_by structural f a1 => f

/-- The table do-while-comma loop of `parseFromClause`. -/
def parseFromTablesLoop : Nat → PState → List Node → List Node →
    Except SQLErr (List Node × List Node × PState)
  | 0, _, _, _ => .error fuelErr
  | fuel + 1, st, tables, joins => do
    let (table, st1) ← parseTableReference fuel st
    let tables2 := tables ++ [table]
    let (joins2, st2) ← parseJoinRunLoop fuel st1 joins
    let (comma, st3) := st2.consume .COMMA
    if comma.isSome then
      parseFromTablesLoop fuel st3 tables2 joins2
    else
      pure (tables2, joins2, st3)
termination_by structural f a1 a2 a3 => f

/-- The inner `while (matchAny(JOIN, INNER, LEFT, RIGHT, FULL, CROSS))`
loop of `parseFromClause`. -/
def parseJoinRunLoop : Nat → PState → List Node → Except SQLErr (List Node × PState)
  | 0, _, _ => .error fuelErr
  | fuel + 1, st, joins =>
    if st.matchAny [.JOIN, .INNER, .LEFT, .RIGHT, .FULL, .CROSS] then do
      let (j, st1) ← parseJoinClause fuel st
      parseJoinRunLoop fuel st1 (joins ++ [j])
    else
      pure (joins, st)
termination_by structural f a1 a2 => f

/-- `parseTableReference`. -/
def parseTableReference : Nat → PState → Except SQLErr (Node × PState)
  | 0, _ => .error fuelErr
  | fuel + 1, st => do
    let (st1, wasSubquery) ←
      if st.matchT .LEFT_PAREN then
        pure (st.advance, true)
      else
        pure (st, false)
    if wasSubquery ∧ st1.matchT .SELECT then do
      let (query, st2) ← parseSelectStatement fuel st1
      let (_, st3) ← expectT st2 .RIGHT_PAREN
      let (al, st4) ←
        if st3.matchT .AS then do
          let st3a := st3.advance
          let (tok, st3b) ← expectT st3a .IDENTIFIER
          pure (some tok.value, st3b)
        else if st3.matchT .IDENTIFIER ∧ canBeAlias st3.cur then
          match st3.cur with
          | some tk => pure (some tk.value, st3.advance)
          | none => pure (none, st3)
        else
          pure (none, st3)
      pure (Node.subQuery query al, st4)
    else do
      -- not a subquery: `this.position--` backtracks over the `(`
      let st2 := if wasSubquery then { st1 with position := st1.position - 1 } else st1
      let (nameTok, st3) ← expectT st2 .IDENTIFIER
      let (al, st4) ←
        if st3.matchT .AS then do
          let st3a := st3.advance
          let (tok, st3b) ← expectT st3a .IDENTIFIER
          pure (some tok.value, st3b)
        else if st3.matchT .IDENTIFIER ∧ canBeAlias st3.cur then
          match st3.cur with
          | some tk => pure (some tk.value, st3.advance)
          | none => pure (none, st3)
        else
          pure (none, st3)
      pure (Node.tableRef nameTok.value al none, st4)
termination_by structural f a1 => f

/-- `parseJoinClause`. -/
def parseJoinClause : Nat → PState → Except SQLErr (Node × PState)
  | 0, _ => .error fuelErr
  | fuel + 1, st => do
    let (joinType, st1) :=
      if st.matchT .LEFT then
        let sta := st.advance
        if sta.matchT .OUTER then ("LEFT OUTER", sta.advance) else ("LEFT", sta)
      else if st.matchT .RIGHT then
        let sta := st.advance
        if sta.matchT .OUTER then ("RIGHT OUTER", sta.advance) else ("RIGHT", sta)
      else if st.matchT .FULL then
        let sta := st.advance
        if sta.matchT .OUTER then ("FULL OUTER", sta.advance) else ("FULL", sta)
      else if st.matchT .CROSS then
        ("CROSS", st.advance)
      else if st.matchT .INNER then
        ("INNER", st.advance)
      else
        ("INNER", st)
    let (_, st2) ← expectT st1 .JOIN
    let (table, st3) ← parseTableReference fuel st2
    if joinType ≠ "CROSS" then do
      let (_, st4) ← expectT st3 .ON
      let (condition, st5) ← parseExpression fuel st4
      pure (Node.joinClause joinType table (some condition), st5)
    else
      pure (Node.joinClause joinType table none, st3)
termination_by structural f a1 => f

/-- `parseWhereClause`: returns the condition expression directly (the
source comments that the condition is returned unwrapped for backward
compatibility). -/
def parseWhereClause : Nat → PState → Except SQLErr (Node × PState)
  | 0, _ => .error fuelErr
  | fuel + 1, st => do
    let (_, st1) ← expectT st .WHERE
    let (condition, st2) ← parseExpression fuel st1
    pure (condition, st2)
termination_by structural f a1 => f

/-- `parseGroupByClause`. -/
def parseGroupByClause : Nat → PState → Except SQLErr (Node × PState)
  | 0, _ => .error fuelErr
  | fuel + 1, st => do
    let (_, st1) ← expectT st .GROUP
    let (_, st2) ← expectT st1 .BY
    let (columns, st3) ← parseExprCommaLoop fuel st2 []
    pure (Node.groupByClause columns, st3)
termination_by structural f a1 => f

/-- A `do { exprs.push(parseExpression()) } while (consume(COMMA))` loop
(GROUP BY lists, PARTITION BY lists, VALUES rows). -/
def parseExprCommaLoop : Nat → PState → List Node → Except SQLErr (List Node × PState)
  | 0, _, _ => .error fuelErr
  | fuel + 1, st, acc => do
    let (e, st1) ← parseExpression fuel st
    let acc2 := acc ++ [e]
    let (comma, st2) := st1.consume .COMMA
    if comma.isSome then
      parseExprCommaLoop fuel st2 acc2
    else
      pure (acc2, st2)
termination_by structural f a1 a2 => f

/-- `parseHavingClause`. -/
def parseHavingClause : Nat → PState → Except SQLErr (Node × PState)
  | 0, _ => .error fuelErr
  | fuel + 1, st => do
    let (_, st1) ← expectT st .HAVING
    let (condition, st2) ← parseExpression fuel st1
    pure (Node.havingClause condition, st2)
termination_by structural f a1 => f

/-- `parseOrderByClause`. -/
def parseOrderByClause : Nat → PState → Except SQLErr (Node × PState)
  | 0, _ => .error fuelErr
  | fuel + 1, st => do
    let (_, st1) ← expectT st .ORDER
    let (_, st2) ← expectT st1 .BY
    let (columns, st3) ← parseOrderByColumnsLoop fuel st2 []
    pure (Node.orderByClause columns, st3)
termination_by structural f a1 => f

/-- The order-by item do-while-comma loop. -/
def parseOrderByColumnsLoop : Nat → PState → List Node → Except SQLErr (List Node × PState)
  | 0, _, _ => .error fuelErr
  | fuel + 1, st, acc => do
    let (column, st1) ← parseExpression fuel st
    let (direction, st2) :=
      if st1.matchAny [.ASC, .DESC] then
        match st1.cur with
        | some tk => (jsUpper tk.value, st1.advance)
        | none => ("ASC", st1)
      else ("ASC", st1)
    let acc2 := acc ++ [Node.orderByColumn column direction]
    let (comma, st3) := st2.consume .COMMA
    if comma.isSome then
      parseOrderByColumnsLoop fuel st3 acc2
    else
      pure (acc2, st3)
termination_by structural f a1 a2 => f

/-- `parseLimitClause`. -/
def parseLimitClause : Nat → PState → Except SQLErr (Node × PState)
  | 0, _ => .error fuelErr
  | fuel + 1, st => do
    let (_, st1) ← expectT st .LIMIT
    let (count, st2) ← parseExpression fuel st1
    let (offsetE, st3) ←
      if st2.matchT .OFFSET then do
        let st2a := st2.advance
        let (o, s) ← parseExpression fuel st2a
        pure (some o, s)
      else pure (none, st2)
    pure (Node.limitClause count offsetE, st3)
termination_by structural f a1 => f

/-- `parseInsertStatement`. -/
def parseInsertStatement : Nat → PState → Except SQLErr (Node × PState)
  | 0, _ => .error fuelErr
  | fuel + 1, st => do
    let (_, st1) ← expectT st .INSERT
    let (_, st2) ← expectT st1 .INTO
    let (table, st3) ← parseTableReference fuel st2
    let (columns, st4) ←
      if st3.matchT .LEFT_PAREN then do
        let st3a := st3.advance
        let (cols, st3b) ← parseIdentListLoop fuel st3a []
        let (_, st3c) ← expectT st3b .RIGHT_PAREN
        pure (cols, st3c)
      else pure ([], st3)
    let (_, st5) ← expectT st4 .VALUES
    let (values, st6) ← parseValuesRowsLoop fuel st5 []
    pure (Node.insertStmt table columns values, st6)
termination_by structural f a1 => f

/-- The `( expr, … )` row do-while-comma loop of `parseInsertStatement`. -/
def parseValuesRowsLoop : Nat → PState → List Node → Except SQLErr (List Node × PState)
  | 0, _, _ => .error fuelErr
  | fuel + 1, st, acc => do
    let (_, st1) ← expectT st .LEFT_PAREN
    let (valueList, st2) ← parseExprCommaLoop fuel st1 []
    let (_, st3) ← expectT st2 .RIGHT_PAREN
    let acc2 := acc ++ [Node.valuesList valueList]
    let (comma, st4) := st3.consume .COMMA
    if comma.isSome then
      parseValuesRowsLoop fuel st4 acc2
    else
      pure (acc2, st4)
termination_by structural f a1 a2 => f

/-- `parseUpdateStatement`. -/
def parseUpdateStatement : Nat → PState → Except SQLErr (Node × PState)
  | 0, _ => .error fuelErr
  | fuel + 1, st => do
    let (_, st1) ← expectT st .UPDATE
    let (table, st2) ← parseTableReference fuel st1
    let (_, st3) ← expectT st2 .SET
    let (assignments, st4) ← parseAssignmentsLoop fuel st3 []
    let (whereClause, st5) ←
      if st4.matchT .WHERE then do
        let (w, s) ← parseWhereClause fuel st4
        pure (some w, s)
      else pure (none, st4)
    pure (Node.updateStmt table assignments whereClause, st5)
termination_by structural f a1 => f

/-- The `col = expr` do-while-comma loop of `parseUpdateStatement`. -/
def parseAssignmentsLoop : Nat → PState → List Node → Except SQLErr (List Node × PState)
  | 0, _, _ => .error fuelErr
  | fuel + 1, st, acc => do
    let (colTok, st1) ← expectT st .IDENTIFIER
    let (_, st2) ← expectT st1 .EQUALS
    let (value, st3) ← parseExpression fuel st2
    let acc2 := acc ++ [Node.assignment colTok.value value]
    let (comma, st4) := st3.consume .COMMA
    if comma.isSome then
      parseAssignmentsLoop fuel st4 acc2
    else
      pure (acc2, st4)
termination_by structural f a1 a2 => f

/-- `parseDeleteStatement`. -/
def parseDeleteStatement : Nat → PState → Except SQLErr (Node × PState)
  | 0, _ => .error fuelErr
  | fuel + 1, st => do
    let (_, st1) ← expectT st .DELETE
    let (_, st2) ← expectT st1 .FROM
    let (table, st3) ← parseTableReference fuel st2
    let (whereClause, st4) ←
      if st3.matchT .WHERE then do
        let (w, s) ← parseWhereClause fuel st3
        pure (some w, s)
      else pure (none, st3)
    pure (Node.deleteStmt table whereClause, st4)
termination_by structural f a1 => f

/-- `parseExpression`. -/
def parseExpression : Nat → PState → Except SQLErr (Node × PState)
  | 0, _ => .error fuelErr
  | fuel + 1, st => parseOrExpression fuel st
termination_by structural f a1 => f

/-- `parseOrExpression`. -/
def parseOrExpression : Nat → PState → Except SQLErr (Node × PState)
  | 0, _ => .error fuelErr
  | fuel + 1, st => do
    let (left, st1) ← parseAndExpression fuel st
    parseOrLoop fuel left st1
termination_by structural f a1 => f

/-- The `while (match(OR))` loop of `parseOrExpression`. -/
def parseOrLoop : Nat → Node → PState → Except SQLErr (Node × PState)
  | 0, _, _ => .error fuelErr
  | fuel + 1, left, st =>
    if st.matchT .OR then
      match st.cur with
      | some opTok => do
        let st1 := st.advance
        let (right, st2) ← parseAndExpression fuel st1
        parseOrLoop fuel (Node.binary left opTok.value right) st2
      | none => pure (left, st)
    else
      pure (left, st)
termination_by structural f a1 a2 => f

/-- `parseAndExpression`. -/
def parseAndExpression : Nat → PState → Except SQLErr (Node × PState)
  | 0, _ => .error fuelErr
  | fuel + 1, st => do
    let (left, st1) ← parseEqualityExpression fuel st
    parseAndLoop fuel left st1
termination_by structural f a1 => f

/-- The `while (match(AND))` loop of `parseAndExpression`. -/
def parseAndLoop : Nat → Node → PState → Except SQLErr (Node × PState)
  | 0, _, _ => .error fuelErr
  | fuel + 1, left, st =>
    if st.matchT .AND then
      match st.cur with
      | some opTok => do
        let st1 := st.advance
        let (right, st2) ← parseEqualityExpression fuel st1
        parseAndLoop fuel (Node.binary left opTok.value right) st2
      | none => pure (left, st)
    else
      pure (left, st)
termination_by structural f a1 a2 => f

/-- `parseEqualityExpression`. -/
def parseEqualityExpression : Nat → PState → Except SQLErr (Node × PState)
  | 0, _ => .error fuelErr
  | fuel + 1, st => do
    let (left, st1) ← parseRelationalExpression fuel st
    parseEqualityLoop fuel left st1
termination_by structural f a1 => f

/-- The `while (matchAny(EQUALS, NOT_EQUALS))` loop. -/
def parseEqualityLoop : Nat → Node → PState → Except SQLErr (Node × PState)
  | 0, _, _ => .error fuelErr
  | fuel + 1, left, st =>
    if st.matchAny [.EQUALS, .NOT_EQUALS] then
      match st.cur with
      | some opTok => do
        let st1 := st.advance
        let (right, st2) ← parseRelationalExpression fuel st1
        parseEqualityLoop fuel (Node.binary left opTok.value right) st2
      | none => pure (left, st)
    else
      pure (left, st)
termination_by structural f a1 a2 => f

/-- `parseRelationalExpression`. -/
def parseRelationalExpression : Nat → PState → Except SQLErr (Node × PState)
  | 0, _ => .error fuelErr
  | fuel + 1, st => do
    let (left, st1) ← parseAdditiveExpression fuel st
    parseRelationalLoop fuel left st1
termination_by structural f a1 => f

/-- The relational/containment `while` loop, with the special IN, BETWEEN,
IS and ANY/ALL right-hand handling.  The operator comparisons are on the
token's surface text, exactly as in the source. -/
def parseRelationalLoop : Nat → Node → PState → Except SQLErr (Node × PState)
  | 0, _, _ => .error fuelErr
  | fuel + 1, left, st =>
    if st.matchAny [.LESS_THAN, .GREATER_THAN, .LESS_THAN_EQUALS,
        .GREATER_THAN_EQUALS, .LIKE, .ILIKE, .IN, .BETWEEN, .IS] then
      match st.cur with
      | some opTok => do
        let op := opTok.value
        let st1 := st.advance
        if op == "IN" then do
          let (_, st2) ← expectT st1 .LEFT_PAREN
          if st2.matchT .SELECT then do
            let (query, st3) ← parseSelectStatement fuel st2
            let (_, st4) ← expectT st3 .RIGHT_PAREN
            parseRelationalLoop fuel
              (Node.binary left op (Node.subQuery query none)) st4
          else do
            let (values, st3) ←
              if st2.matchT .RIGHT_PAREN then
                pure ([], st2)
              else
                parseExprCommaLoop fuel st2 []
            let (_, st4) ← expectT st3 .RIGHT_PAREN
            parseRelationalLoop fuel
              (Node.binary left op (Node.valuesList values)) st4
        else if op == "BETWEEN" then do
          let (startValue, st2) ← parseAdditiveExpression fuel st1
          let (_, st3) ← expectT st2 .AND
          let (endValue, st4) ← parseAdditiveExpression fuel st3
          parseRelationalLoop fuel
            (Node.binary left op (Node.betweenRange startValue endValue)) st4
        else if op == "IS" then do
          let (isOperator, st2) :=
            if st1.matchT .NOT then ("IS NOT", st1.advance) else ("IS", st1)
          if st2.matchT .NULL then
            parseRelationalLoop fuel
              (Node.binary left isOperator (Node.literal .nul "NULL")) st2.advance
          else
            .error (sqlErrArity3 ("Expected NULL after " ++ isOperator)
              st2.curLineOr1 st2.curColOr1)
        else
          if st1.matchAny [.ANY, .ALL] then
            match st1.cur with
            | some qTok => do
              let st2 := st1.advance
              let (_, st3) ← expectT st2 .LEFT_PAREN
              if st3.matchT .SELECT then do
                let (query, st4) ← parseSelectStatement fuel st3
                let (_, st5) ← expectT st4 .RIGHT_PAREN
                parseRelationalLoop fuel
                  (Node.binary left (op ++ " " ++ qTok.value)
                    (Node.subQuery query none)) st5
              else
                .error (sqlErrArity3 ("Expected SELECT after " ++ qTok.value)
                  st3.curLineOr1 st3.curColOr1)
            | none => pure (left, st1)
          else do
            let (right, st2) ← parseAdditiveExpression fuel st1
            parseRelationalLoop fuel (Node.binary left op right) st2
      | none => pure (left, st)
    else
      pure (left, st)
termination_by structural f a1 a2 => f

/-- `parseAdditiveExpression`. -/
def parseAdditiveExpression : Nat → PState → Except SQLErr (Node × PState)
  | 0, _ => .error fuelErr
  | fuel + 1, st => do
    let (left, st1) ← parseMultiplicativeExpression fuel st
    parseAdditiveLoop fuel left st1
termination_by structural f a1 => f

/-- The `while (matchAny(PLUS, MINUS))` loop. -/
def parseAdditiveLoop : Nat → Node → PState → Except SQLErr (Node × PState)
  | 0, _, _ => .error fuelErr
  | fuel + 1, left, st =>
    if st.matchAny [.PLUS, .MINUS] then
      match st.cur with
      | some opTok => do
        let st1 := st.advance
        let (right, st2) ← parseMultiplicativeExpression fuel st1
        parseAdditiveLoop fuel (Node.binary left opTok.value right) st2
      | none => pure (left, st)
    else
      pure (left, st)
termination_by structural f a1 a2 => f

/-- `parseMultiplicativeExpression`. -/
def parseMultiplicativeExpression : Nat → PState → Except SQLErr (Node × PState)
  | 0, _ => .error fuelErr
  | fuel + 1, st => do
    let (left, st1) ← parseUnaryExpression fuel st
    parseMultiplicativeLoop fuel left st1
termination_by structural f a1 => f

/-- The `while (matchAny(MULTIPLY, DIVIDE, MODULO, CONCAT))` loop. -/
def parseMultiplicativeLoop : Nat → Node → PState → Except SQLErr (Node × PState)
  | 0, _, _ => .error fuelErr
  | fuel + 1, left, st =>
    if st.matchAny [.MULTIPLY, .DIVIDE, .MODULO, .CONCAT] then
      match st.cur with
      | some opTok => do
        let st1 := st.advance
        let (right, st2) ← parseUnaryExpression fuel st1
        parseMultiplicativeLoop fuel (Node.binary left opTok.value right) st2
      | none => pure (left, st)
    else
      pure (left, st)
termination_by structural f a1 a2 => f

/-- `parseUnaryExpression`. -/
def parseUnaryExpression : Nat → PState → Except SQLErr (Node × PState)
  | 0, _ => .error fuelErr
  | fuel + 1, st =>
    if st.matchAny [.NOT, .MINUS, .PLUS] then
      match st.cur with
      | some opTok => do
        let st1 := st.advance
        let (operand, st2) ← parseUnaryExpression fuel st1
        pure (Node.unary opTok.value operand, st2)
      | none => parsePrimaryExpression fuel st
    else if st.matchT .EXISTS then do
      let st1 := st.advance
      let (_, st2) ← expectT st1 .LEFT_PAREN
      let (query, st3) ← parseSelectStatement fuel st2
      let (_, st4) ← expectT st3 .RIGHT_PAREN
      pure (Node.unary "EXISTS" query, st4)
    else
      parsePrimaryExpression fuel st
termination_by structural f a1 => f

/-- `parsePrimaryExpression`. -/
def parsePrimaryExpression : Nat → PState → Except SQLErr (Node × PState)
  | 0, _ => .error fuelErr
  | fuel + 1, st =>
    match st.cur with
    | none => .error (SQLErr.unexpectedEnd st.lastLine st.lastCol)
    | some token =>
      if token.type == TokenType.LEFT_PAREN then do
        let st1 := st.advance
        if st1.matchT .SELECT then do
          let (query, st2) ← parseSelectStatement fuel st1
          let (_, st3) ← expectT st2 .RIGHT_PAREN
          pure (Node.subQuery query none, st3)
        else do
          let (expr, st2) ← parseExpression fuel st1
          let (_, st3) ← expectT st2 .RIGHT_PAREN
          pure (expr, st3)
      else if token.type == TokenType.INTERVAL then do
        let st1 := st.advance
        let (value, st2) ← parseExpression fuel st1
        let (unit, st3) :=
          if st2.matchAny [.YEAR, .MONTH, .DAY, .HOUR, .MINUTE, .SECOND] then
            match st2.cur with
            | some tk => (jsUpper tk.value, st2.advance)
            | none => ("DAY", st2)
          else if st2.matchT .IDENTIFIER then
            match st2.cur with
            | some tk =>
              if ["YEAR", "MONTH", "DAY", "HOUR", "MINUTE", "SECOND"].contains
                  (jsUpper tk.value) then
                (jsUpper tk.value, st2.advance)
              else ("DAY", st2)
            | none => ("DAY", st2)
          else ("DAY", st2)
        pure (Node.intervalExpr value unit, st3)
      else if token.type == TokenType.STRING then
        pure (Node.literal (.str token.value) "string", st.advance)
      else if token.type == TokenType.NUMBER then
        -- `value.includes(".") ? parseFloat(value) : parseInt(value, 10)`
        let value : Rat :=
          if token.value.data.contains '.' then jsParseFloatDec token.value
          else jsParseIntDec token.value
        pure (Node.literal (.num value) "number", st.advance)
      else if token.type == TokenType.BOOLEAN then
        pure (Node.literal (.bool (jsLower token.value == "true")) "boolean", st.advance)
      else if token.type == TokenType.NULL then
        pure (Node.literal .nul "null", st.advance)
      else if token.type == TokenType.CASE then
        parseCaseExpression fuel st
      else if token.type == TokenType.IDENTIFIER || isFunctionKeyword token then do
        let name := token.value
        let st1 := st.advance
        if st1.matchT .LEFT_PAREN then do
          let st2 := st1.advance
          if jsUpper name == "EXTRACT" then do
            match st2.cur with
            | none => .error (SQLErr.unexpectedToken "date/time field" "null" 0 0)
            | some fieldToken =>
              if [TokenType.IDENTIFIER, TokenType.YEAR, TokenType.MONTH,
                  TokenType.DAY, TokenType.HOUR, TokenType.MINUTE,
                  TokenType.SECOND].contains fieldToken.type then do
                let st3 := st2.advance
                let (_, st4) ← expectT st3 .FROM
                let (source, st5) ← parseExpression fuel st4
                let (_, st6) ← expectT st5 .RIGHT_PAREN
                pure (Node.functionCall name
                  [Node.literal (.str fieldToken.value) "string", source] false true, st6)
              else
                .error (SQLErr.unexpectedToken "date/time field"
                  (typeStr fieldToken.type) fieldToken.line fieldToken.column)
          else do
            let (args, distinct, st3) ←
              if st2.matchT .RIGHT_PAREN then
                pure (([] : List Node), false, st2)
              else do
                let (distinct, st2a) :=
                  if st2.matchT .DISTINCT then (true, st2.advance) else (false, st2)
                let (args, st2b) ← parseFunctionArgsLoop fuel st2a []
                pure (args, distinct, st2b)
            let (_, st4) ← expectT st3 .RIGHT_PAREN
            let func := Node.functionCall name args distinct false
            if st4.matchT .OVER then do
              let st5 := st4.advance
              let (overCl, st6) ← parseOverClause fuel st5
              pure (Node.windowFunction func overCl, st6)
            else
              pure (func, st4)
        else if st1.matchT .DOT then do
          let st2 := st1.advance
          let (colTok, st3) ← expectT st2 .IDENTIFIER
          pure (Node.columnRef colTok.value (some name) none, st3)
        else
          pure (Node.columnRef name none none, st1)
      else
        .error (SQLErr.unexpectedToken "expression" (typeStr token.type)
          token.line token.column)
termination_by structural f a1 => f

/-- The argument do-while-comma loop of a function call, admitting `*` as
a `STAR` literal argument. -/
def parseFunctionArgsLoop : Nat → PState → List Node → Except SQLErr (List Node × PState)
  | 0, _, _ => .error fuelErr
  | fuel + 1, st, acc => do
    let (arg, st1) ←
      if st.matchT .MULTIPLY then
        pure (Node.literal (.str "*") "STAR", st.advance)
      else
        parseExpression fuel st
    let acc2 := acc ++ [arg]
    let (comma, st2) := st1.consume .COMMA
    if comma.isSome then
      parseFunctionArgsLoop fuel st2 acc2
    else
      pure (acc2, st2)
termination_by structural f a1 a2 => f

/-- `parseCaseExpression`. -/
def parseCaseExpression : Nat → PState → Except SQLErr (Node × PState)
  | 0, _ => .error fuelErr
  | fuel + 1, st => do
    let (_, st1) ← expectT st .CASE
    let (scrutinee, st2) ←
      if st1.matchT .WHEN then
        pure ((none : Option Node), st1)
      else do
        let (e, s) ← parseExpression fuel st1
        pure (some e, s)
    let (whenClauses, st3) ← parseWhenLoop fuel st2 []
    let (elseClause, st4) ←
      if st3.matchT .ELSE then do
        let st3a := st3.advance
        let (e, s) ← parseExpression fuel st3a
        pure (some e, s)
      else pure (none, st3)
    let (_, st5) ← expectT st4 .END
    pure (Node.caseExpr scrutinee whenClauses elseClause, st5)
termination_by structural f a1 => f

/-- The `while (match(WHEN))` loop of `parseCaseExpression`. -/
def parseWhenLoop : Nat → PState → List Node → Except SQLErr (List Node × PState)
  | 0, _, _ => .error fuelErr
  | fuel + 1, st, acc =>
    if st.matchT .WHEN then do
      let st1 := st.advance
      let (condition, st2) ← parseExpression fuel st1
      let (_, st3) ← expectT st2 .THEN
      let (result, st4) ← parseExpression fuel st3
      parseWhenLoop fuel st4 (acc ++ [Node.whenClause condition result])
    else
      pure (acc, st)
termination_by structural f a1 a2 => f

/-- `parseOverClause`. -/
def parseOverClause : Nat → PState → Except SQLErr (Node × PState)
  | 0, _ => .error fuelErr
  | fuel + 1, st => do
    let (_, st1) ← expectT st .LEFT_PAREN
    let (partitionBy, st2) ←
      if st1.matchT .PARTITION then do
        let st1a := st1.advance
        let (_, st1b) ← expectT st1a .BY
        let (exprs, st1c) ← parseExprCommaLoop fuel st1b []
        pure (some exprs, st1c)
      else pure (none, st1)
    let (orderByC, st3) ←
      if st2.matchT .ORDER then do
        let st2a := st2.advance
        let (_, st2b) ← expectT st2a .BY
        let (cols, st2c) ← parseOrderByColumnsLoop fuel st2b []
        pure (some cols, st2c)
      else pure (none, st2)
    let (frame, st4) ←
      if st3.matchAny [.ROWS, .RANGE] then do
        let (f, s) ← parseWindowFrame fuel st3
        pure (some f, s)
      else pure (none, st3)
    let (_, st5) ← expectT st4 .RIGHT_PAREN
    pure (Node.overClause partitionBy orderByC frame, st5)
termination_by structural f a1 => f

/-- `parseWindowFrame`. -/
def parseWindowFrame : Nat → PState → Except SQLErr (Node × PState)
  | 0, _ => .error fuelErr
  | fuel + 1, st => do
    let (frameType, st1) :=
      match st.cur with
      | some tk => (jsUpper tk.value, st.advance)
      | none => ("", st)
    if st1.matchT .BETWEEN then do
      let st2 := st1.advance
      let (start, st3) ← parseFrameBound fuel st2
      let (_, st4) ← expectT st3 .AND
      let (frameEnd, st5) ← parseFrameBound fuel st4
      pure (Node.windowFrame frameType start (some frameEnd), st5)
    else do
      let (start, st2) ← parseFrameBound fuel st1
      pure (Node.windowFrame frameType start none, st2)
termination_by structural f a1 => f

/-- `parseFrameBound`.  Note that the direction keyword is consumed with
an unconditional `advance()` even when it defaulted. -/
def parseFrameBound : Nat → PState → Except SQLErr (Node × PState)
  | 0, _ => .error fuelErr
  | fuel + 1, st =>
    if st.matchT .UNBOUNDED then do
      let st1 := st.advance
      let direction :=
        if st1.matchAny [.PRECEDING, .FOLLOWING] then
          match st1.cur with
          | some tk => jsUpper tk.value
          | none => "PRECEDING"
        else "PRECEDING"
      pure (Node.boundUnbounded direction, st1.advance)
    else if st.matchT .CURRENT then do
      let st1 := st.advance
      let (_, st2) ← expectT st1 .ROW
      pure (Node.boundCurrentRow, st2)
    else if st.matchT .INTERVAL then do
      let st1 := st.advance
      let (intervalValue, st2) ← parseExpression fuel st1
      let unit :=
        if st2.matchAny [.YEAR, .MONTH, .DAY, .HOUR, .MINUTE, .SECOND] then
          match st2.cur with
          | some tk => jsUpper tk.value
          | none => "DAY"
        else "DAY"
      let st3 := st2.advance
      let direction :=
        if st3.matchAny [.PRECEDING, .FOLLOWING] then
          match st3.cur with
          | some tk => jsUpper tk.value
          | none => "PRECEDING"
        else "PRECEDING"
      pure (Node.boundInterval intervalValue unit direction, st3.advance)
    else do
      let (value, st1) ← parseExpression fuel st
      let direction :=
        if st1.matchAny [.PRECEDING, .FOLLOWING] then
          match st1.cur with
          | some tk => jsUpper tk.value
          | none => "PRECEDING"
        else "PRECEDING"
      pure (Node.boundOffset value direction, st1.advance)
termination_by structural f a1 => f

end

/-- `parse()`: empty-input check, one statement, trailing-token check in
strict mode. -/
def parseTop (opts : ParseOptions) (fuel : Nat) (st : PState) :
    Except SQLErr (Node × PState) := do
  match st.cur with
  | none => .error { message := "Empty input", code := "EMPTY_INPUT", line := 1, column := 1 }
  | some t =>
    if t.type == TokenType.EOF ∧ st.position = 0 then
      .error { message := "Empty input", code := "EMPTY_INPUT", line := 1, column := 1 }
    else do
      let (stmt, st1) ← parseStatement fuel st
      match st1.cur with
      | some t2 =>
        if !(t2.type == TokenType.EOF) ∧ opts.strict then
          .error (SQLErr.unexpectedToken "end of statement" (typeStr t2.type)
            t2.line t2.column)
        else
          pure (stmt, st1)
      | none => pure (stmt, st1)

/-! ## Analyzer (`src/analyzer/query-analyzer.js`) -/

/-- Values produced by the analyzer's `extractValue`: either an ordinary
JS value or a raw AST node object that leaks out of the default case
(`if (node.value !== undefined) return node.value` on nodes whose `value`
property is itself a node). -/
inductive EVal where
  | v (j : JsVal)
  | obj (n : Node)
deriving Repr

/-- Rendering of a JS number inside a template literal.  JS renders
doubles in decimal notation; every value rendered in this development is
integral, where the two notations agree.  Non-integral rationals are
rendered as `num/den` (never reached by the theorems below). -/
def ratToJsString (q : Rat) : String :=
  if q.den = 1 then toString q.num else toString q.num ++ "/" ++ toString q.den

/-- `${x}` template-literal stringification (`null` renders as "null",
objects as "[object Object]"). -/
def evTemplateStr : EVal → String
  | .v .nul => "null"
  | .v (.str s) => s
  | .v (.bool b) => if b then "true" else "false"
  | .v (.num q) => ratToJsString q
  | .obj _ => "[object Object]"

/-- `Array.prototype.join` stringification (`null` renders as the empty
string). -/
def evJoinStr : EVal → String
  | .v .nul => ""
  | .v (.str s) => s
  | .v (.bool b) => if b then "true" else "false"
  | .v (.num q) => ratToJsString q
  | .obj _ => "[object Object]"

/-- The `name` property of a node, when the node class has one. -/
def nodeNameProp : Node → Option String
  | .identNode name _ => some name
  | .tableRef name _ _ => some name
  | .columnRef name _ _ => some name
  | .functionCall name _ _ _ => some name
  | .wildcard => some "*"
  | .cte name _ _ => some name
  | .aliased _ e => nodeNameProp e
  | _ => none

mutual

/-- `extractFieldName` (the `null`-input case of the source never arises
from the call sites embedded here). -/
def extractFieldName : Node → String
  | .identNode name _ => name
  | .functionCall name args _ _ =>
    -- formatFunctionCall
    name ++ "(" ++ String.intercalate ", " (extractFieldNameList args) ++ ")"
  | .aliased _ e => extractFieldName e
  | n =>
    match nodeNameProp n with
    | some s => if s = "" then "unknown" else s
    | none => "unknown"
termination_by structural n => n

/-- `arguments.map(extractFieldName)` of `formatFunctionCall`. -/
def extractFieldNameList : List Node → List String
  | [] => []
  | a :: rest => extractFieldName a :: extractFieldNameList rest
termination_by structural l => l

end

/-- `formatFunctionCall`. -/
def formatFunctionCall (name : String) (args : List Node) : String :=
  name ++ "(" ++ String.intercalate ", " (extractFieldNameList args) ++ ")"

mutual

/-- `extractValue`.  The switch cases for node types this parser never
produces (`MemberExpression`, `ArrayExpression`, `SubqueryExpression`,
`NullLiteral`, `BooleanLiteral`, `NumericLiteral`, `StringLiteral`) have
no corresponding constructor and therefore no arm; a `SubQuery` node falls
to the default arm and renders as `[SubQuery]`. -/
def extractValue : Node → EVal
  | .literal value _ => .v value
  | .identNode name _ => .v (.str name)
  | .columnRef name table _ =>
    .v (.str (match table with
      | some t => t ++ "." ++ name
      | none => name))
  | .tableRef name _ _ => .v (.str name)
  | .binary l op r =>
    .v (.str (evTemplateStr (extractValue l) ++ " " ++ op ++ " " ++
      evTemplateStr (extractValue r)))
  | .unary op operand =>
    .v (.str (op ++ " " ++ evTemplateStr (extractValue operand)))
  | .functionCall name args _ _ =>
    .v (.str (name ++ "(" ++ String.intercalate ", " (extractValueJoinList args) ++ ")"))
  | .caseExpr scrutinee whenClauses elseClause =>
    .v (.str ("CASE" ++
      (match scrutinee with
       | some e => " " ++ evTemplateStr (extractValue e)
       | none => "") ++
      extractValueWhenStr whenClauses ++
      (match elseClause with
       | some e => " ELSE " ++ evTemplateStr (extractValue e)
       | none => "") ++ " END"))
  | .whenClause condition result =>
    .v (.str ("WHEN " ++ evTemplateStr (extractValue condition) ++ " THEN " ++
      evTemplateStr (extractValue result)))
  | .betweenRange s e =>
    .v (.str ("BETWEEN " ++ evTemplateStr (extractValue s) ++ " AND " ++
      evTemplateStr (extractValue e)))
  | .valuesList values =>
    .v (.str ("(" ++ String.intercalate ", " (extractValueJoinList values) ++ ")"))
  | .assignment _column value =>
    -- `${extractValue(node.column)} = ${extractValue(node.value)}`: the
    -- column is a plain string, for which extractValue returns "unknown"
    .v (.str ("unknown = " ++ evTemplateStr (extractValue value)))
  | .whereClause condition => extractValue condition
  | .fromClause tables _ =>
    .v (.str (String.intercalate ", " (extractValueJoinList tables)))
  | .joinClause joinType table condition =>
    .v (.str (joinType ++ " " ++ evTemplateStr (extractValue table) ++
      (match condition with
       | some c => " ON " ++ evTemplateStr (extractValue c)
       | none => "")))
  | .orderByColumn column direction =>
    .v (.str (evTemplateStr (extractValue column) ++ " " ++ direction))
  | .limitClause _count offsetE =>
    -- raw nodes interpolated into the template render as "[object Object]"
    .v (.str (match offsetE with
      | some _ => "LIMIT [object Object], [object Object]"
      | none => "LIMIT [object Object]"))
  | .aliased _ e => extractValue e
  | .boundInterval value _ _ => EVal.obj value
  | .boundOffset value _ => EVal.obj value
  | .intervalExpr value _ => EVal.obj value
  | n =>
    -- default arm: no `value`/`text` property; `name` when present,
    -- otherwise `[<type>]`
    match nodeNameProp n with
    | some s => .v (.str s)
    | none => .v (.str ("[" ++ Node.typeName n ++ "]"))
termination_by structural n => n

/-- `xs.map(extractValue).join(", ")` pieces. -/
def extractValueJoinList : List Node → List String
  | [] => []
  | a :: rest => evJoinStr (extractValue a) :: extractValueJoinList rest
termination_by structural l => l

/-- The WHEN-clause portion of the `CaseExpression` string. -/
def extractValueWhenStr : List Node → String
  | [] => ""
  | w :: rest =>
    (match w with
     | .whenClause c r =>
       " WHEN " ++ evTemplateStr (extractValue c) ++ " THEN " ++
         evTemplateStr (extractValue r)
     | other =>
       -- `extractValue(whenClause.condition)` on a non-WhenClause entry
       -- dereferences undefined in JS; unreachable from this parser
       " WHEN " ++ evTemplateStr (extractValue other) ++ " THEN " ++
         evTemplateStr (extractValue other)) ++
    extractValueWhenStr rest
termination_by structural l => l

end

/-- `getConditionType` (the `_value` parameter is unused in the source). -/
def getConditionType (op : String) : String :=
  if op = "=" ∨ op = "!=" ∨ op = "<>" then "equality"
  else if op = ">" ∨ op = "<" ∨ op = ">=" ∨ op = "<=" then "comparison"
  else if op = "LIKE" ∨ op = "ILIKE" then "pattern"
  else if op = "IN" then "list"
  else if op = "BETWEEN" then "range"
  else "other"

/-- One extracted WHERE condition (`{field, operator, value, type}`). -/
structure Condition where
  field : String
  op : String
  value : EVal
  condType : String
deriving Repr

/-- The operator list admitted by `extractConditions`. -/
def conditionOps : List String :=
  ["=", "!=", "<>", ">", "<", ">=", "<=", "LIKE", "ILIKE", "IN", "BETWEEN"]

/-- `traverseCondition` of `extractConditions`: descends through AND/OR
binaries and NOT unaries; admits only the operators in `conditionOps` as
condition leaves (in particular IS / IS NOT leaves produce nothing). -/
def traverseCondition : Node → List Condition
  | .binary l op r =>
    if conditionOps.contains op then
      [{ field := extractFieldName l, op := op, value := extractValue r,
         condType := getConditionType op }]
    else if op = "AND" ∨ op = "OR" then
      traverseCondition l ++ traverseCondition r
    else
      []
  | .unary op operand =>
    if op = "NOT" then traverseCondition operand else []
  | .aliased _ e => traverseCondition e
  | _ => []

/-- `extractConditions`. -/
def extractConditions : Option Node → List Condition
  | none => []
  | some w =>
    match w with
    | .whereClause cond => traverseCondition cond
    | _ => traverseCondition w

/-- `isAggregateFunction`. -/
def isAggregateFunction (functionName : String) : Bool :=
  ["COUNT", "SUM", "AVG", "MAX", "MIN", "GROUP_CONCAT"].contains (jsUpper functionName)

/-- One select-list field description. -/
structure FieldInfo where
  name : String
  al : Option String
  fieldType : String
  table : Option String
  expressionS : Option String
  aggregation : Bool
deriving Repr

/-- Strip the dynamic-alias wrapper (JS reads the node's own `type`). -/
def stripAliasNode : Node → Node
  | .aliased _ e => e
  | n => n

/-- The per-item body of `extractFields`. -/
def fieldInfoOf (field : Node) : FieldInfo :=
  let al := aliasOf field
  match stripAliasNode field with
  | .columnRef name table _ =>
    { name := name, al := al, fieldType := "column", table := table,
      expressionS := none, aggregation := false }
  | .identNode name _ =>
    { name := name, al := al, fieldType := "column", table := none,
      expressionS := none, aggregation := false }
  | .functionCall name args _ _ =>
    { name := name, al := al, fieldType := "function", table := none,
      expressionS := some (formatFunctionCall name args),
      aggregation := isAggregateFunction name }
  | .caseExpr _ _ _ =>
    { name := (match al with
        | some a => if a = "" then "case_expression" else a
        | none => "case_expression"),
      al := al, fieldType := "case", table := none,
      expressionS := some "CASE表达式", aggregation := false }
  | _ =>
    { name := (match al with
        | some a => if a = "" then "expression" else a
        | none => "expression"),
      al := al, fieldType := "expression", table := none,
      expressionS := some "复杂表达式", aggregation := false }

/-- `extractFields`. -/
def extractFields (selectList : List Node) : List FieldInfo :=
  selectList.map fieldInfoOf

/-- One table description (`{name, alias, schema}`). -/
structure TableInfo where
  name : String
  al : Option String
  schema : Option String
deriving Repr, DecidableEq

/-- The `extractTable` helper of `extractTableInfo` (the `JoinExpression`
case of the source matches no node this parser produces). -/
def extractTableOne : Node → List TableInfo
  | .tableRef name al schema => [{ name := name, al := al, schema := schema }]
  | _ => []

/-- `extractTableInfo`. -/
def extractTableInfo : Option Node → List TableInfo
  | none => []
  | some f =>
    match f with
    | .fromClause tables joins =>
      tables.flatMap extractTableOne ++
      joins.flatMap (fun j =>
        match j with
        | .joinClause _ table _ => extractTableOne table
        | _ => [])
    | other => extractTableOne other

/-- A rendered join condition (`{left, operator, right}`). -/
structure JoinCond where
  left : String
  op : String
  right : String
deriving Repr, DecidableEq

/-- `extractJoinCondition`. -/
def extractJoinCondition : Node → Option JoinCond
  | .binary l op r =>
    some { left := extractFieldName l, op := op, right := extractFieldName r }
  | .aliased _ e => extractJoinCondition e
  | _ => none

/-- One join description.  Note `type: join.type` in the source reads the
node's `type` discriminant (always `"JoinClause"`), not `joinType`. -/
structure JoinInfo where
  joinType : String
  table : Option String
  al : Option String
  condition : Option JoinCond
deriving Repr, DecidableEq

/-- `extractJoinInfo`. -/
def extractJoinInfo (joins : List Node) : List JoinInfo :=
  joins.map fun j =>
    match j with
    | .joinClause _ table cond =>
      { joinType := Node.typeName j,
        table := nodeNameProp table,
        al := aliasOf table,
        condition := match cond with
          | some c => extractJoinCondition c
          | none => none }
    | other =>
      -- `join.table.name` on a non-JoinClause entry dereferences
      -- undefined in JS; unreachable from this parser
      { joinType := Node.typeName other, table := none, al := none,
        condition := none }

/-- One order-by description (`{field, direction}`). -/
structure OrderInfo where
  field : String
  direction : String
deriving Repr, DecidableEq

/-- `extractOrderBy`. -/
def extractOrderBy : Option Node → List OrderInfo
  | none => []
  | some ob =>
    match ob with
    | .orderByClause columns =>
      columns.map fun item =>
        match item with
        | .orderByColumn column direction =>
          { field := extractFieldName column,
            direction := if direction = "" then "ASC" else direction }
        | other =>
          -- `item.column` is undefined on a non-OrderByColumn entry;
          -- unreachable from this parser
          { field := extractFieldName other, direction := "ASC" }
    | _ => []

/-- `extractGroupBy`. -/
def extractGroupBy : Option Node → List String
  | none => []
  | some gb =>
    match gb with
    | .groupByClause columns => columns.map extractFieldName
    | _ => []

/-- The `{count, offset}` limit description. -/
structure LimitInfo where
  count : EVal
  offsetV : Option EVal
deriving Repr

/-- `extractLimit`. -/
def extractLimit : Option Node → Option LimitInfo
  | none => none
  | some l =>
    match l with
    | .limitClause count offsetE =>
      some { count := extractValue count, offsetV := offsetE.map extractValue }
    | _ => none

/-- The analyzer's structured query description. -/
structure Analysis where
  conditions : List Condition
  fields : List FieldInfo
  tables : List TableInfo
  joins : List JoinInfo
  orderBy : List OrderInfo
  groupBy : List String
  limit : Option LimitInfo
deriving Repr

/-- `analyzeSelectQuery` (throws for non-SELECT input). -/
def analyzeSelectQuery (ast : Node) : Except String Analysis :=
  match ast with
  | .selectStmt _ columns fromC whereC groupByC _ orderByC limitC _ =>
    let joins : List Node :=
      match fromC with
      | some (.fromClause _ js) => js
      | _ => []
    .ok { conditions := extractConditions whereC,
          fields := extractFields columns,
          tables := extractTableInfo fromC,
          joins := extractJoinInfo joins,
          orderBy := extractOrderBy orderByC,
          groupBy := extractGroupBy groupByC,
          limit := extractLimit limitC }
  | _ => .error "只支持SELECT查询的分析"

/-- The complexity report. -/
structure Complexity where
  level : String
  score : Nat
  factors : List String
deriving Repr, DecidableEq

/-- `analyzeQueryComplexity`. -/
def analyzeQueryComplexity (analysisResult : Analysis) : Complexity :=
  let score0 : Nat := 0
  let factors0 : List String := []
  let (score1, factors1) :=
    if analysisResult.conditions.length > 0 then
      (score0 + analysisResult.conditions.length * 2,
       factors0 ++ [toString analysisResult.conditions.length ++ "个查询条件"])
    else (score0, factors0)
  let (score2, factors2) :=
    if analysisResult.tables.length > 1 then
      (score1 + (analysisResult.tables.length - 1) * 3,
       factors1 ++ [toString analysisResult.tables.length ++ "个表"])
    else (score1, factors1)
  let (score3, factors3) :=
    if analysisResult.joins.length > 0 then
      (score2 + analysisResult.joins.length * 4,
       factors2 ++ [toString analysisResult.joins.length ++ "个JOIN"])
    else (score2, factors2)
  let aggregateFields := analysisResult.fields.filter (fun f => f.aggregation)
  let (score4, factors4) :=
    if aggregateFields.length > 0 then
      (score3 + aggregateFields.length * 2,
       factors3 ++ [toString aggregateFields.length ++ "个聚合函数"])
    else (score3, factors3)
  let (score5, factors5) :=
    if analysisResult.groupBy.length > 0 then
      (score4 + 3, factors4 ++ ["GROUP BY"])
    else (score4, factors4)
  let (score6, factors6) :=
    if analysisResult.orderBy.length > 0 then
      (score5 + 2, factors5 ++ ["ORDER BY"])
    else (score5, factors5)
  { level :=
      if score6 ≤ 5 then "simple"
      else if score6 ≤ 15 then "medium"
      else "complex",
    score := score6,
    factors := factors6 }

/-! ## Facade (`src/index.js`) -/

/-- Options accepted by `parseSQL` after merging with its defaults (the
`dialect` option is never read by lexer or parser and is omitted). -/
structure Options where
  strict : Bool := false
  includeComments : Bool := false
  includeTokens : Bool := false
deriving Repr

/-- Contribution of one node to `extractTablesFromAST`: the `name` of a
`TableReference` node when truthy (non-empty). -/
def tableNameContrib : Node → List String
  | .tableRef name _ _ => if name = "" then [] else [name]
  | _ => []

/-- Contribution of one node to the column traversals: the `name` of a
`ColumnReference`, or of an `Identifier` (the `node.parent` guard of
`extractColumnsFromAST` always passes because this parser never assigns a
`parent` property to any node). -/
def columnNameContrib : Node → List String
  | .columnRef name _ _ => if name = "" then [] else [name]
  | .identNode name _ => if name = "" then [] else [name]
  | _ => []

mutual

/-- The facade's `traverseAST`: contribute at the node, then recurse into
every object- or array-valued own property, in property insertion order.
String, boolean, number and `null` properties are skipped, exactly as
`typeof value === "object"` (guarded against `null`) skips them.  The
`aliased` wrapper is transparent: in JS the alias is a string property on
the node itself, which the traversal skips.  Property order follows the
insertion order of the class constructor (dynamically added properties
such as a select's `with` come last). -/
def collectNode (f : Node → List String) : Node → List String
  | .aliased _ e => collectNode f e
  | n@(.selectStmt _ columns fromC whereC groupByC havingC orderByC limitC withC) =>
    f n ++ collectList f columns ++ collectOpt f fromC ++ collectOpt f whereC ++
    collectOpt f groupByC ++ collectOpt f havingC ++ collectOpt f orderByC ++
    collectOpt f limitC ++ collectOpt f withC
  | n@(.insertStmt table _ values) => f n ++ collectNode f table ++ collectList f values
  | n@(.updateStmt table setA whereC) =>
    f n ++ collectNode f table ++ collectList f setA ++ collectOpt f whereC
  | n@(.deleteStmt fromT whereC) => f n ++ collectNode f fromT ++ collectOpt f whereC
  | n@(.unionStmt l r _ _ orderByC limitC withC) =>
    f n ++ collectNode f l ++ collectNode f r ++ collectOpt f orderByC ++
    collectOpt f limitC ++ collectOpt f withC
  | n@(.withClause _ exprs) => f n ++ collectList f exprs
  | n@(.cte _ _ query) => f n ++ collectNode f query
  | n@(.windowFunction fn over) => f n ++ collectNode f fn ++ collectNode f over
  | n@(.overClause partitionBy orderByC frame) =>
    f n ++ collectOptList f partitionBy ++ collectOptList f orderByC ++ collectOpt f frame
  | n@(.windowFrame _ s frameEnd) => f n ++ collectNode f s ++ collectOpt f frameEnd
  | n@(.boundUnbounded _) => f n
  | n@(.boundCurrentRow) => f n
  | n@(.boundInterval value _ _) => f n ++ collectNode f value
  | n@(.boundOffset value _) => f n ++ collectNode f value
  | n@(.binary l _ r) => f n ++ collectNode f l ++ collectNode f r
  | n@(.unary _ operand) => f n ++ collectNode f operand
  | n@(.functionCall _ args _ _) => f n ++ collectList f args
  | n@(.caseExpr scrut whens elseC) =>
    f n ++ collectOpt f scrut ++ collectList f whens ++ collectOpt f elseC
  | n@(.whenClause c r) => f n ++ collectNode f c ++ collectNode f r
  | n@(.identNode _ _) => f n
  | n@(.tableRef _ _ _) => f n
  | n@(.columnRef _ _ _) => f n
  | n@(.wildcard) => f n
  | n@(.literal _ _) => f n
  | n@(.fromClause tables joins) => f n ++ collectList f tables ++ collectList f joins
  | n@(.whereClause c) => f n ++ collectNode f c
  | n@(.joinClause _ table cond) => f n ++ collectNode f table ++ collectOpt f cond
  | n@(.groupByClause cols) => f n ++ collectList f cols
  | n@(.havingClause c) => f n ++ collectNode f c
  | n@(.orderByClause cols) => f n ++ collectList f cols
  | n@(.orderByColumn col _) => f n ++ collectNode f col
  | n@(.limitClause count offsetE) => f n ++ collectNode f count ++ collectOpt f offsetE
  | n@(.assignment _ value) => f n ++ collectNode f value
  | n@(.valuesList vs) => f n ++ collectList f vs
  | n@(.betweenRange s e) => f n ++ collectNode f s ++ collectNode f e
  | n@(.intervalExpr v _) => f n ++ collectNode f v
  | n@(.subQuery q _) => f n ++ collectNode f q
termination_by structural n => n

/-- `value.forEach(traverseAST)` over an array property. -/
def collectList (f : Node → List String) : List Node → List String
  | [] => []
  | n :: rest => collectNode f n ++ collectList f rest
termination_by structural l => l

/-- A nullable object property. -/
def collectOpt (f : Node → List String) : Option Node → List String
  | none => []
  | some n => collectNode f n
termination_by structural o => o

/-- A nullable array property. -/
def collectOptList (f : Node → List String) : Option (List Node) → List String
  | none => []
  | some l => collectList f l
termination_by structural o => o

end

/-- Insertion-order deduplication, as `Array.from(new Set(...))`. -/
def dedupAux : List String → List String → List String
  | [], _ => []
  | s :: rest, seen =>
    if seen.contains s then dedupAux rest seen
    else s :: dedupAux rest (s :: seen)

/-- `Array.from` of a `Set` filled in traversal order. -/
def dedupFirst (l : List String) : List String := dedupAux l []

/-- `extractTablesFromAST` (duplicates kept; its `!ast` early return is
unreachable from `parseSQL`, which only calls it on a parsed AST). -/
def extractTablesFromAST (ast : Node) : List String :=
  collectNode tableNameContrib ast

/-- `extractColumnsFromAST` (a `Set` deduplicates in insertion order). -/
def extractColumnsFromAST (ast : Node) : List String :=
  dedupFirst (collectNode columnNameContrib ast)

/-- The envelope returned by `parseSQL`. -/
structure ParseResult where
  success : Bool
  ast : Option Node
  tables : List String
  columns : List String
  tokens : Option (List Token) := none
  errors : List SQLErr
deriving Repr

/-- `parseSQL`.  The lexer receives the merged config, whose
`includeWhitespace` always defaults to `false`; the parser drops
whitespace/newline/comment tokens and receives `strict`.  Thrown
`SQLError`s become the failure envelope.  `fuel` bounds the parser's
recursion depth (the JS recursion is unbounded). -/
def parseSQL (fuel : Nat) (s : String) (opts : Options) : ParseResult :=
  match tokenize s ⟨false, opts.includeComments⟩ with
  | .error e => { success := false, ast := none, tables := [], columns := [], errors := [e] }
  | .ok ts =>
    match parseTop ⟨opts.strict⟩ fuel ⟨filterTrivia ts, 0⟩ with
    | .error e => { success := false, ast := none, tables := [], columns := [], errors := [e] }
    | .ok (ast, _) =>
      { success := true,
        ast := some ast,
        tables := extractTablesFromAST ast,
        columns := extractColumnsFromAST ast,
        tokens := if opts.includeTokens then some ts else none,
        errors := [] }

/-- The envelope returned by `validateSQL`. -/
structure ValidationResult where
  valid : Bool
  errors : List SQLErr
deriving Repr

/-- `validateSQL`: a thin shim over `parseSQL` (the inner catch is dead
code, since `parseSQL` catches everything it could throw). -/
def validateSQL (fuel : Nat) (s : String) (opts : Options) : ValidationResult :=
  let result := parseSQL fuel s opts
  { valid := result.success, errors := result.errors }

/-- `extractTables(sqlString)` on a string: parse, then collect table
names deduplicated in traversal order. -/
def extractTables (fuel : Nat) (s : String) : List String :=
  let result := parseSQL fuel s {}
  if result.success then
    match result.ast with
    | some ast => dedupFirst (collectNode tableNameContrib ast)
    | none => []
  else []

/-- `extractTables(ast)` as called by `analyzeSQL`'s non-SELECT branch:
the argument is an AST object, not a string, so `parseSQL` immediately
throws `INVALID_INPUT`, the surrounding `try` catches it, and the result
is always the empty array (typed here at `TableInfo`, the element type of
`analysis.tables`). -/
def extractTablesOnAst (_ : Node) : List TableInfo := []

/-- The `query` description in an `analyzeSQL` result. -/
structure QueryInfo where
  qtype : String
  sql : String
deriving Repr

/-- The envelope returned by `analyzeSQL`. -/
structure AnalyzeResult where
  success : Bool
  error : Option String := none
  query : QueryInfo
  analysis : Option Analysis := none
  complexity : Option Complexity := none
  astR : Option ParseResult := none
deriving Repr

/-- `analyzeSQL`. -/
def analyzeSQL (fuel : Nat) (s : String) (opts : Options) : AnalyzeResult :=
  let parseResult := parseSQL fuel s opts
  if !parseResult.success then
    { success := false,
      error := some (match parseResult.errors.head? with
        | some e => if e.message = "" then "Parse failed" else e.message
        | none => "Parse failed"),
      query := { qtype := "unknown", sql := jsTrim s } }
  else
    match parseResult.ast with
    | none =>
      { success := false, error := some "Parse failed",
        query := { qtype := "unknown", sql := jsTrim s } }
    | some ast =>
      if Node.typeName ast = "SelectStatement" then
        match analyzeSelectQuery ast with
        | .error msg =>
          { success := false, error := some msg,
            query := { qtype := "unknown", sql := jsTrim s } }
        | .ok analysis =>
          { success := true,
            query := { qtype := Node.typeName ast, sql := jsTrim s },
            analysis := some analysis,
            complexity := some (analyzeQueryComplexity analysis),
            astR := some parseResult }
      else
        { success := true,
          query := { qtype := Node.typeName ast, sql := jsTrim s },
          analysis := some
            { conditions := [], fields := [], tables := extractTablesOnAst ast,
              joins := [], orderBy := [], groupBy := [], limit := none },
          complexity := some { level := "simple", score := 0, factors := [] },
          astR := some parseResult }

/-! ## Proof infrastructure -/

/-- Success of a bind decomposes into successes of the two stages. -/
theorem bind_ok {α β : Type} (x : Except SQLErr α) (f : α → Except SQLErr β) (b : β) :
    x >>= f = .ok b ↔ ∃ a, x = .ok a ∧ f a = .ok b := by
  cases x <;> simp [Bind.bind, Except.bind]

/-- `pure` in the `Except SQLErr` monad is `ok`. -/
theorem pure_ok {α : Type} (a b : α) : (pure a : Except SQLErr α) = .ok b ↔ a = b := by
  simp [pure, Except.pure]

/-! ## Union chains and ORDER BY / LIMIT -/

/-- Every `SelectStatement` or `UnionStatement` node of a union chain,
including its head, carries `orderBy = null` and `limit = null`. -/
def chainInnerClean : Node → Prop
  | .unionStmt l r _ _ ob lc _ =>
    ob = none ∧ lc = none ∧ chainInnerClean l ∧ chainInnerClean r
  | .selectStmt _ _ _ _ _ _ ob lc _ => ob = none ∧ lc = none
  | _ => True
termination_by structural n => n

/-- `ORDER BY`/`LIMIT` sit only at the root of the parsed statement: when
the root is a Union node, every select and union strictly below it is
clean.  A non-union root (in particular a lone select) may carry them. -/
def chainSelectsClean : Node → Prop
  | .unionStmt l r _ _ _ _ _ => chainInnerClean l ∧ chainInnerClean r
  | _ => True

/-- `parseSelectStatement` always returns a select node whose `orderBy`
and `limit` are `null` (they are attached later by `parseUnionStatement`,
its only caller). -/
theorem parseSelectStatement_shape (fuel : Nat) (st : PState) (n : Node) (st1 : PState)
    (h : parseSelectStatement fuel st = .ok (n, st1)) :
    ∃ d c fr w g hv, n = Node.selectStmt d c fr w g hv none none none := by
  cases fuel with
  | zero => simp [parseSelectStatement] at h
  | succ fuel =>
    simp only [parseSelectStatement, bind_ok, pure_ok, pure_bind, ite_eq_iff,
      Prod.mk.injEq] at h
    obtain ⟨a, -, b, -, h⟩ := h
    rcases h with ⟨-, _, -, h⟩ | ⟨-, h⟩ <;>
      (rcases h with ⟨-, _, -, h⟩ | ⟨-, h⟩) <;>
      (rcases h with ⟨-, _, -, h⟩ | ⟨-, h⟩) <;>
      (rcases h with ⟨-, _, -, h⟩ | ⟨-, h⟩) <;>
      exact ⟨_, _, _, _, _, _, h.1.symm⟩

/-- `parseSelectStatementWithoutOrderLimit` likewise returns a select with
`orderBy = limit = null`. -/
theorem parseSelectStatementWOL_shape (fuel : Nat) (st : PState) (n : Node) (st1 : PState)
    (h : parseSelectStatementWithoutOrderLimit fuel st = .ok (n, st1)) :
    ∃ d c fr w g hv, n = Node.selectStmt d c fr w g hv none none none := by
  cases fuel with
  | zero => simp [parseSelectStatementWithoutOrderLimit] at h
  | succ fuel =>
    simp only [parseSelectStatementWithoutOrderLimit, bind_ok, pure_ok, pure_bind,
      ite_eq_iff, Prod.mk.injEq] at h
    obtain ⟨a, -, b, -, h⟩ := h
    rcases h with ⟨-, _, -, h⟩ | ⟨-, h⟩ <;>
      (rcases h with ⟨-, _, -, h⟩ | ⟨-, h⟩) <;>
      (rcases h with ⟨-, _, -, h⟩ | ⟨-, h⟩) <;>
      (rcases h with ⟨-, _, -, h⟩ | ⟨-, h⟩) <;>
      exact ⟨_, _, _, _, _, _, h.1.symm⟩

/-- Selects with `null` order/limit are clean. -/
theorem chainInnerClean_select (d : Bool) (c : List Node) (fr w g hv wc : Option Node) :
    chainInnerClean (Node.selectStmt d c fr w g hv none none wc) := by
  simp [chainInnerClean]

/-- The right-hand sides of a union chain are built without ORDER BY or
LIMIT anywhere. -/
theorem parseUnionStatementWOL_clean (fuel : Nat) :
    ∀ (st : PState) (n : Node) (st1 : PState),
      parseUnionStatementWithoutOrderLimit fuel st = .ok (n, st1) → chainInnerClean n := by
  induction fuel with
  | zero =>
    intro st n st1 h
    simp [parseUnionStatementWithoutOrderLimit] at h
  | succ fuel ih =>
    intro st n st1 h
    simp only [parseUnionStatementWithoutOrderLimit, bind_ok, pure_ok, pure_bind,
      ite_eq_iff, Prod.mk.injEq] at h
    obtain ⟨a, hL, h⟩ := h
    obtain ⟨d, c, fr, w, g, hv, he⟩ := parseSelectStatementWOL_shape fuel st a.1 a.2 hL
    rcases h with ⟨-, r, hR, hn, -⟩ | ⟨-, hn, -⟩
    · rw [← hn]
      simp only [chainInnerClean]
      exact ⟨trivial, trivial, he ▸ chainInnerClean_select _ _ _ _ _ _ _, ih _ r.1 r.2 hR⟩
    · rw [← hn, he]
      exact chainInnerClean_select _ _ _ _ _ _ _

/-- `parseUnionStatement` yields a clean chain: an outer ORDER BY / LIMIT
lands on the Union root (or mutates the lone select); nothing below the
root carries either. -/
theorem parseUnionStatement_clean (fuel : Nat) (st : PState) (n : Node) (st1 : PState)
    (h : parseUnionStatement fuel st = .ok (n, st1)) : chainSelectsClean n := by
  cases fuel with
  | zero => simp [parseUnionStatement] at h
  | succ fuel =>
    simp only [parseUnionStatement, bind_ok, pure_ok, pure_bind, ite_eq_iff,
      Prod.mk.injEq] at h
    obtain ⟨a, hL, h⟩ := h
    obtain ⟨d, c, fr, w, g, hv, he⟩ := parseSelectStatement_shape fuel st a.1 a.2 hL
    rcases h with ⟨-, h⟩ | ⟨-, h⟩
    · obtain ⟨r, hR, h⟩ := h
      have hrc := parseUnionStatementWOL_clean fuel _ r.1 r.2 hR
      rcases h with ⟨-, _, -, h⟩ | ⟨-, h⟩ <;>
        (rcases h with ⟨-, _, -, h⟩ | ⟨-, h⟩) <;>
        (rw [← h.1]
         exact ⟨he ▸ chainInnerClean_select _ _ _ _ _ _ _, hrc⟩)
    · rw [he] at h
      simp only [pure_ok, Prod.mk.injEq] at h
      rcases h with ⟨-, _, -, h⟩ | ⟨-, h⟩ <;>
        (rcases h with ⟨-, _, -, h⟩ | ⟨-, h⟩) <;>
        (rcases h with ⟨-, h⟩ | ⟨-, h⟩) <;>
        (rw [← h.1]; simp [chainSelectsClean])

/-- A `WITH` statement only decorates the select/union returned by
`parseUnionStatement` with the CTE list; the chain stays clean. -/
theorem parseWithStatement_clean (fuel : Nat) (st : PState) (n : Node) (st1 : PState)
    (h : parseWithStatement fuel st = .ok (n, st1)) : chainSelectsClean n := by
  cases fuel with
  | zero => simp [parseWithStatement] at h
  | succ fuel =>
    simp only [parseWithStatement, bind_ok, pure_ok, pure_bind, Prod.mk.injEq] at h
    obtain ⟨a, -, b, -, m, hU, hn, -⟩ := h
    have hc := parseUnionStatement_clean fuel _ m.1 m.2 hU
    rw [← hn]
    cases hm : m.1 <;> rw [hm] at hc <;> simp_all [chainSelectsClean, chainInnerClean]

/-- `parseInsertStatement` returns an `InsertStatement` node. -/
theorem parseInsertStatement_shape (fuel : Nat) (st : PState) (n : Node) (st1 : PState)
    (h : parseInsertStatement fuel st = .ok (n, st1)) :
    ∃ t c v, n = Node.insertStmt t c v := by
  cases fuel with
  | zero => simp [parseInsertStatement] at h
  | succ fuel =>
    simp only [parseInsertStatement, bind_ok, pure_ok, pure_bind, ite_eq_iff,
      Prod.mk.injEq] at h
    obtain ⟨a, -, b, -, t, -, h⟩ := h
    rcases h with ⟨-, _, -, _, -, h⟩ | ⟨-, h⟩ <;>
      (obtain ⟨_, -, _, -, h⟩ := h) <;>
      exact ⟨_, _, _, h.1.symm⟩

/-- `parseUpdateStatement` returns an `UpdateStatement` node. -/
theorem parseUpdateStatement_shape (fuel : Nat) (st : PState) (n : Node) (st1 : PState)
    (h : parseUpdateStatement fuel st = .ok (n, st1)) :
    ∃ t s w, n = Node.updateStmt t s w := by
  cases fuel with
  | zero => simp [parseUpdateStatement] at h
  | succ fuel =>
    simp only [parseUpdateStatement, bind_ok, pure_ok, pure_bind, ite_eq_iff,
      Prod.mk.injEq] at h
    obtain ⟨a, -, t, -, b, -, s, -, h⟩ := h
    rcases h with ⟨-, _, -, h⟩ | ⟨-, h⟩ <;>
      exact ⟨_, _, _, h.1.symm⟩

/-- `parseDeleteStatement` returns a `DeleteStatement` node. -/
theorem parseDeleteStatement_shape (fuel : Nat) (st : PState) (n : Node) (st1 : PState)
    (h : parseDeleteStatement fuel st = .ok (n, st1)) :
    ∃ t w, n = Node.deleteStmt t w := by
  cases fuel with
  | zero => simp [parseDeleteStatement] at h
  | succ fuel =>
    simp only [parseDeleteStatement, bind_ok, pure_ok, pure_bind, ite_eq_iff,
      Prod.mk.injEq] at h
    obtain ⟨a, -, b, -, t, -, h⟩ := h
    rcases h with ⟨-, _, -, h⟩ | ⟨-, h⟩ <;>
      exact ⟨_, _, h.1.symm⟩

/-- Every statement produced by `parseStatement` has a clean union chain. -/
theorem parseStatement_chain_clean (fuel : Nat) (st : PState) (n : Node) (st1 : PState)
    (h : parseStatement fuel st = .ok (n, st1)) : chainSelectsClean n := by
  cases fuel with
  | zero => simp [parseStatement] at h
  | succ fuel =>
    simp only [parseStatement] at h
    split at h
    · exact absurd h (by simp)
    · split at h
      · exact parseWithStatement_clean fuel _ n st1 h
      · exact parseUnionStatement_clean fuel _ n st1 h
      · obtain ⟨_, _, _, hn⟩ := parseInsertStatement_shape fuel _ n st1 h
        rw [hn]; simp [chainSelectsClean]
      · obtain ⟨_, _, _, hn⟩ := parseUpdateStatement_shape fuel _ n st1 h
        rw [hn]; simp [chainSelectsClean]
      · obtain ⟨_, _, hn⟩ := parseDeleteStatement_shape fuel _ n st1 h
        rw [hn]; simp [chainSelectsClean]
      · exact absurd h (by simp)

/-- C1: for every statement successfully returned by `parse()`, every
inner SELECT (and nested Union) node of a UNION chain has `orderBy = null`
and `limit = null`; an ORDER BY or LIMIT parsed after the chain sits only
on the outermost Union node, or on the lone select when no UNION
occurred. -/
theorem union_order_limit_outer_only (opts : ParseOptions) (fuel : Nat)
    (st : PState) (stmt : Node) (st1 : PState)
    (h : parseTop opts fuel st = .ok (stmt, st1)) : chainSelectsClean stmt := by
  simp only [parseTop] at h
  split at h
  · exact absurd h (by simp)
  · split at h
    · exact absurd h (by simp)
    · simp only [bind_ok, pure_ok, Prod.mk.injEq] at h
      obtain ⟨a, hS, h⟩ := h
      have hc := parseStatement_chain_clean fuel _ a.1 a.2 hS
      split at h
      · split at h
        · exact absurd h (by simp)
        · simp only [pure_ok, Prod.mk.injEq] at h
          rw [← h.1]; exact hc
      · simp only [pure_ok, Prod.mk.injEq] at h
        rw [← h.1]; exact hc

/-- The parser state for the C1 witness input. -/
def c1state : PState :=
  ⟨filterTrivia ((tokenize "SELECT a FROM t UNION SELECT b FROM u ORDER BY a LIMIT 1"
      ⟨false, false⟩).toOption.getD []), 0⟩

/-- C1 witness: the theorem applied to a concrete two-branch union with an
outer ORDER BY and LIMIT. -/
theorem c1_witness :
    match parseTop ⟨false⟩ 60 c1state with
    | .ok (n, _) => chainSelectsClean n
    | .error _ => False := by
  have hok : (match parseTop ⟨false⟩ 60 c1state with
    | .ok _ => true | .error _ => false) = true := by rfl
  rcases hr : parseTop ⟨false⟩ 60 c1state with e | ⟨n, st1⟩
  · rw [hr] at hok; simp at hok
  · exact union_order_limit_outer_only ⟨false⟩ 60 c1state n st1 hr

/-! ## Complexity scoring -/

/-- C2: the complexity score equals 0 plus 2 per extracted condition, plus
3 per table beyond the first, plus 4 per join, plus 2 per aggregate field,
plus 3 if the groupBy list is non-empty, plus 2 if the orderBy list is
non-empty; and the level is `simple` when the score is at most 5, `medium`
when at most 15, and `complex` otherwise. -/
theorem complexity_score_formula (a : Analysis) :
    (analyzeQueryComplexity a).score =
      2 * a.conditions.length +
      (if a.tables.length > 1 then 3 * (a.tables.length - 1) else 0) +
      4 * a.joins.length +
      2 * (a.fields.filter (fun f => f.aggregation)).length +
      (if a.groupBy.length > 0 then 3 else 0) +
      (if a.orderBy.length > 0 then 2 else 0) ∧
    (analyzeQueryComplexity a).level =
      (if (analyzeQueryComplexity a).score ≤ 5 then "simple"
       else if (analyzeQueryComplexity a).score ≤ 15 then "medium" else "complex") := by
  constructor
  · unfold analyzeQueryComplexity
    dsimp only
    split_ifs
    all_goals omega
  · rfl

/-! ## Scenario S7: IS NOT / BETWEEN / LIKE conditions -/

/-- The S7 input, with the pattern quoted by single quotes. -/
def c3input : String :=
  "SELECT * FROM users WHERE email IS NOT NULL AND age BETWEEN 18 AND 65 AND name LIKE "
    ++ String.mk [quoteChar, 'A', '%', quoteChar]

/-- C3 counterexample: the analyzer produces two conditions on the S7
input, not three. -/
theorem c3_counterexample :
    ((analyzeSQL 200 c3input {}).analysis.map fun a => a.conditions.length) = some 2 := by
  rfl

/-- C3 (amended): on the S7 input, parsing succeeds and the analyzer
produces exactly two conditions, `range` (for BETWEEN) and `pattern` (for
LIKE), in that order.  The `IS NOT` leaf is dropped: `traverseCondition`
admits only operators in its allow-list, which does not contain `IS NOT`,
so the condition never reaches `getConditionType`. -/
theorem s7_conditions_range_pattern :
    (analyzeSQL 200 c3input {}).success = true ∧
    ((analyzeSQL 200 c3input {}).analysis.map fun a =>
      a.conditions.map fun c => (c.field, c.op, c.condType)) =
      some [("age", "BETWEEN", "range"), ("name", "LIKE", "pattern")] :=
  ⟨rfl, rfl⟩

/-! ## Condition count and the `simple` level -/

/-- A single-table, join-free SELECT with three WHERE conditions. -/
def c4input : String := "SELECT * FROM users WHERE a = 1 AND b = 2 AND c = 3"

/-- C4 counterexample: three equality conditions alone already score
3 × 2 = 6 > 5, so a SELECT with one table, no joins, no aggregates, no
GROUP BY and no ORDER BY is rated `medium`, not `simple`. -/
theorem c4_counterexample :
    ((analyzeSQL 200 c4input {}).analysis.map fun a =>
      (a.conditions.length, a.tables.length, a.joins.length,
       (a.fields.filter fun f => f.aggregation).length,
       a.groupBy.length, a.orderBy.length)) = some (3, 1, 0, 0, 0, 0) ∧
    ((analyzeSQL 200 c4input {}).complexity.map Complexity.level) = some "medium" :=
  ⟨rfl, rfl⟩

/-- C4 (amended): with at most one table, no joins, no aggregate fields,
no GROUP BY and no ORDER BY, the level is `simple` only as long as there
are at most two extracted conditions (each condition scores 2, and the
`simple` threshold is 5). -/
theorem few_conditions_simple (a : Analysis)
    (ht : a.tables.length ≤ 1) (hj : a.joins.length = 0)
    (ha : (a.fields.filter fun f => f.aggregation).length = 0)
    (hg : a.groupBy.length = 0) (ho : a.orderBy.length = 0)
    (hc : a.conditions.length ≤ 2) :
    (analyzeQueryComplexity a).level = "simple" := by
  have hs : (analyzeQueryComplexity a).score ≤ 5 := by
    unfold analyzeQueryComplexity
    dsimp only
    split_ifs
    all_goals omega
  have hl : (analyzeQueryComplexity a).level =
      if (analyzeQueryComplexity a).score ≤ 5 then "simple"
      else if (analyzeQueryComplexity a).score ≤ 15 then "medium" else "complex" := rfl
  rw [hl, if_pos hs]

/-- C4 witness: the amended theorem applied to an analysis with two
conditions and one table. -/
def c4analysis : Analysis :=
  { conditions :=
      [{ field := "a", op := "=", value := .v (.num 1), condType := "equality" },
       { field := "b", op := "=", value := .v (.num 2), condType := "equality" }],
    fields := [],
    tables := [{ name := "users", al := none, schema := none }],
    joins := [], orderBy := [], groupBy := [], limit := none }

theorem c4_witness : (analyzeQueryComplexity c4analysis).level = "simple" :=
  few_conditions_simple c4analysis (by decide) (by decide) (by decide) (by decide)
    (by decide) (by decide)

/-! ## analyzeSQL on non-SELECT statements -/

/-- C5: on `DELETE FROM users` the parse envelope does list the referenced
table `users`, and `analyzeSQL` reports success with the empty analysis —
but `analysis.tables` is empty rather than `["users"]`: the non-SELECT
branch calls `extractTables(ast)` with the AST object instead of the SQL
string, `parseSQL` immediately throws `INVALID_INPUT` on the non-string
argument, and `extractTables`'s catch turns that into `[]`. -/
theorem c5_delete_tables_empty :
    (parseSQL 200 "DELETE FROM users" {}).tables = ["users"] ∧
    (analyzeSQL 200 "DELETE FROM users" {}).success = true ∧
    ((analyzeSQL 200 "DELETE FROM users" {}).analysis.map fun a => a.tables) = some [] :=
  ⟨rfl, rfl, rfl⟩

/-! ## validateSQL as a shim over parseSQL -/

/-- C8: for every string, fuel and options, `validateSQL` returns exactly
`parseSQL`'s `success` flag as `valid` and the same `errors` list. -/
theorem validate_equals_parse (fuel : Nat) (s : String) (opts : Options) :
    (validateSQL fuel s opts).valid = (parseSQL fuel s opts).success ∧
    (validateSQL fuel s opts).errors = (parseSQL fuel s opts).errors :=
  ⟨rfl, rfl⟩

/-! ## NUMBER literals without a decimal point -/

/-- C9: a NUMBER token whose text has no `.` is converted with
`parseInt(value, 10)`, whose value is the integer read from the maximal
digit prefix of the text; in particular `1e3` parses to the literal 1
(conversion stops at `e`), while `1.0e3` goes through `parseFloat` and
parses to 1000. -/
theorem number_no_dot_parseInt :
    (∀ (fuel : Nat) (st : PState) (t : Token), st.cur = some t →
      t.type = TokenType.NUMBER → t.value.data.contains '.' = false →
      parsePrimaryExpression (fuel + 1) st =
        .ok (Node.literal (.num (mkRat (digitsVal (t.value.data.takeWhile isDigitC)) 1))
          "number", st.advance)) ∧
    (match (parseSQL 50 "SELECT 1e3" {}).ast with
      | some (.selectStmt _ [.literal (.num q) _] _ _ _ _ _ _ _) => q = mkRat 1 1
      | _ => False) ∧
    (match (parseSQL 50 "SELECT 1.0e3" {}).ast with
      | some (.selectStmt _ [.literal (.num q) _] _ _ _ _ _ _ _) => q = mkRat 1000 1
      | _ => False) := by
  refine ⟨?_, by exact rfl, by exact rfl⟩
  intro fuel st t hcur hty hnodot
  simp only [parsePrimaryExpression, hcur, hty, hnodot, jsParseIntDec]
  rfl

/-- A one-token parser state holding the NUMBER token `12`. -/
def c9state : PState := ⟨[⟨.NUMBER, "12", 1, 1, 0, 2⟩], 0⟩

/-- C9 witness: the general part applied to the concrete NUMBER token
`12`. -/
theorem c9_witness :
    parsePrimaryExpression 3 c9state =
      .ok (Node.literal (.num (mkRat 12 1)) "number", c9state.advance) :=
  number_no_dot_parseInt.1 2 c9state ⟨.NUMBER, "12", 1, 1, 0, 2⟩ rfl rfl rfl

/-! ## WHERE clauses are bare condition expressions -/

/-- C10: `parseWhereClause` consumes `WHERE` and returns the node produced
by `parseExpression` unchanged — the `WhereClause` node class is never
applied to it; concretely, the `where` field of a parsed SELECT, UPDATE
and DELETE is the bare `BinaryExpression` condition. -/
theorem where_clause_bare :
    (∀ (fuel : Nat) (st : PState),
      parseWhereClause (fuel + 1) st =
        match expectT st TokenType.WHERE with
        | .error e => .error e
        | .ok (_, st1) => parseExpression fuel st1) ∧
    (match (parseSQL 50 "SELECT a FROM t WHERE a = 1" {}).ast with
      | some (.selectStmt _ _ _ (some w) _ _ _ _ _) => Node.typeName w = "BinaryExpression"
      | _ => False) ∧
    (match (parseSQL 50 "UPDATE t SET a = 1 WHERE b = 2" {}).ast with
      | some (.updateStmt _ _ (some w)) => Node.typeName w = "BinaryExpression"
      | _ => False) ∧
    (match (parseSQL 50 "DELETE FROM t WHERE a = 1" {}).ast with
      | some (.deleteStmt _ (some w)) => Node.typeName w = "BinaryExpression"
      | _ => False) := by
  refine ⟨?_, by exact rfl, by exact rfl, by exact rfl⟩
  intro fuel st
  cases hE : expectT st TokenType.WHERE with
  | error e => simp [parseWhereClause, hE, Bind.bind, Except.bind]
  | ok p =>
    cases p with
    | mk tok st1 =>
      simp [parseWhereClause, hE, Bind.bind, Except.bind]
      cases hP : parseExpression fuel st1 <;>
        simp [Bind.bind, Except.bind, pure, Except.pure]

end SqlParserJs
